import Mathlib

/-!
# SceneManager.cpp: texture registry, material table, transform composer, shader setters, scene script

A shallow embedding of `src/SceneManager.cpp`.

* `float` values are elements of a field `α` (exact arithmetic; rounding and the
  special values of IEEE floats are outside the model).
* `cos`, `sin` and `inversesqrt` of the C++ math library are parameters, bundled in
  `MathLib`.
* `m_textureIDs` is the memory of the texture array, indexed by `Nat`: the array
  declared in `SceneManager.h` has 16 elements, and an index of 16 or more is a
  position past its end. A store there is undefined behaviour: the members behind the
  array take indeterminate values, an extra argument of `CreateGLTexture`.
* a local variable that C++ leaves uninitialised is an extra argument of the function
  that declares it.
* the `ShapeMeshes` object records the load and draw calls it receives.
-/

namespace Scene

/-! ## glm vectors and matrices -/

/-- The type `glm::vec2`. -/
structure vec2 (α : Type) where
  x : α
  y : α
deriving DecidableEq, Repr

/-- The type `glm::vec3`. -/
structure vec3 (α : Type) where
  x : α
  y : α
  z : α
deriving DecidableEq, Repr

/-- The type `glm::vec4`; `r g b a` of the source are `x y z w`. -/
structure vec4 (α : Type) where
  x : α
  y : α
  z : α
  w : α
deriving DecidableEq, Repr

/-- The type `glm::mat4`, column-major as in glm: `c0 .. c3` are the four columns. -/
structure mat4 (α : Type) where
  c0 : vec4 α
  c1 : vec4 α
  c2 : vec4 α
  c3 : vec4 α
deriving DecidableEq, Repr

/-! ## Texture registry -/

/-- The struct `TEXTURE_INFO` of `SceneManager.h`: a GPU handle (`uint32_t`, a `Nat`
below `2 ^ 32`) and the tag it was loaded under. -/
structure TEXTURE_INFO where
  ID : Nat
  tag : String
deriving DecidableEq, Repr

/-- The struct `OBJECT_MATERIAL` of `SceneManager.h`. -/
structure OBJECT_MATERIAL (α : Type) where
  ambientStrength : α
  ambientColor : vec3 α
  diffuseColor : vec3 α
  specularColor : vec3 α
  shininess : α
  tag : String
deriving DecidableEq, Repr

/-- A value held by a shader uniform. `setIntValue`, `setBoolValue` and
`setSampler2DValue` all store an integer. -/
inductive UniformValue (α : Type) where
  | int (v : Int)
  | float (v : α)
  | vec2 (v : vec2 α)
  | vec3 (v : vec3 α)
  | vec4 (v : vec4 α)
  | mat4 (v : mat4 α)
deriving DecidableEq, Repr

/-- Modelled from the spec: the Shader Interface (class `ShaderManager`, whose source is
not part of `src/`). It "accepts named uniform values", with "last write wins per named
uniform": the state is the value last written under each name, `none` for a name never
written. -/
structure ShaderManager (α : Type) where
  uniforms : String → Option (UniformValue α)

namespace ShaderManager

variable {α : Type}

/-- Modelled from the spec: the write of one named uniform; every other name keeps its
value. -/
def setValue (sh : ShaderManager α) (name : String) (v : UniformValue α) : ShaderManager α :=
  { uniforms := fun n => if n = name then some v else sh.uniforms n }

/-- Modelled from the spec: `setIntValue(name, value)`. -/
def setIntValue (sh : ShaderManager α) (name : String) (value : Int) : ShaderManager α :=
  sh.setValue name (.int value)

/-- Modelled from the spec: `setBoolValue(name, value)`, stored as the integer 0 or 1. -/
def setBoolValue (sh : ShaderManager α) (name : String) (value : Bool) : ShaderManager α :=
  sh.setValue name (.int (if value then 1 else 0))

/-- Modelled from the spec: `setSampler2DValue(name, value)`, the texture unit index. -/
def setSampler2DValue (sh : ShaderManager α) (name : String) (value : Int) : ShaderManager α :=
  sh.setValue name (.int value)

/-- Modelled from the spec: `setFloatValue(name, value)`. -/
def setFloatValue (sh : ShaderManager α) (name : String) (value : α) : ShaderManager α :=
  sh.setValue name (.float value)

/-- Modelled from the spec: `setVec2Value(name, value)`. -/
def setVec2Value (sh : ShaderManager α) (name : String) (value : Scene.vec2 α) : ShaderManager α :=
  sh.setValue name (.vec2 value)

/-- Modelled from the spec: `setVec3Value(name, value)`. -/
def setVec3Value (sh : ShaderManager α) (name : String) (value : Scene.vec3 α) : ShaderManager α :=
  sh.setValue name (.vec3 value)

/-- Modelled from the spec: `setVec4Value(name, value)`. -/
def setVec4Value (sh : ShaderManager α) (name : String) (value : Scene.vec4 α) : ShaderManager α :=
  sh.setValue name (.vec4 value)

/-- Modelled from the spec: `setMat4Value(name, value)`. -/
def setMat4Value (sh : ShaderManager α) (name : String) (value : Scene.mat4 α) : ShaderManager α :=
  sh.setValue name (.mat4 value)

end ShaderManager

/-- Global `g_ModelName`. -/
def g_ModelName : String := "model"
/-- Global `g_ColorValueName`. -/
def g_ColorValueName : String := "objectColor"
/-- Global `g_TextureValueName`. -/
def g_TextureValueName : String := "objectTexture"
/-- Global `g_UseTextureName`. -/
def g_UseTextureName : String := "bUseTexture"
/-- Global `g_UseLightingName`. -/
def g_UseLightingName : String := "bUseLighting"

/-- The kinds of basic mesh that class `ShapeMeshes` offers. -/
inductive MeshKind where
  | plane
  | cylinder
  | box
  | cone
  | sphere
  | torus
deriving DecidableEq, Repr

/-- Modelled from the spec: the Mesh Library (class `ShapeMeshes`, whose source is not part
of `src/`), "one `load` and one `draw` entry point per primitive kind (plane, cylinder, box,
cone, sphere, torus)". The state records the load calls and the draw calls, oldest
first. -/
structure ShapeMeshes where
  loaded : List MeshKind
  drawn : List MeshKind
deriving DecidableEq, Repr

namespace ShapeMeshes

/-- Modelled from the spec: the load entry point of one kind. -/
def load (m : ShapeMeshes) (k : MeshKind) : ShapeMeshes :=
  { m with loaded := m.loaded ++ [k] }

/-- Modelled from the spec: the draw entry point of one kind; it "issues the GPU draw
call using whatever transform/color/texture/material state is currently active". -/
def draw (m : ShapeMeshes) (k : MeshKind) : ShapeMeshes :=
  { m with drawn := m.drawn ++ [k] }

/-- Modelled from the spec: `LoadPlaneMesh()`. -/
def LoadPlaneMesh (m : ShapeMeshes) : ShapeMeshes := m.load .plane
/-- Modelled from the spec: `LoadCylinderMesh()`. -/
def LoadCylinderMesh (m : ShapeMeshes) : ShapeMeshes := m.load .cylinder
/-- Modelled from the spec: `LoadBoxMesh()`. -/
def LoadBoxMesh (m : ShapeMeshes) : ShapeMeshes := m.load .box
/-- Modelled from the spec: `LoadConeMesh()`. -/
def LoadConeMesh (m : ShapeMeshes) : ShapeMeshes := m.load .cone
/-- Modelled from the spec: `LoadSphereMesh()`. -/
def LoadSphereMesh (m : ShapeMeshes) : ShapeMeshes := m.load .sphere
/-- Modelled from the spec: `LoadTorusMesh()`. -/
def LoadTorusMesh (m : ShapeMeshes) : ShapeMeshes := m.load .torus
/-- Modelled from the spec: `DrawPlaneMesh()`. -/
def DrawPlaneMesh (m : ShapeMeshes) : ShapeMeshes := m.draw .plane
/-- Modelled from the spec: `DrawCylinderMesh()`. -/
def DrawCylinderMesh (m : ShapeMeshes) : ShapeMeshes := m.draw .cylinder
/-- Modelled from the spec: `DrawBoxMesh()`. -/
def DrawBoxMesh (m : ShapeMeshes) : ShapeMeshes := m.draw .box
/-- Modelled from the spec: `DrawConeMesh()`. -/
def DrawConeMesh (m : ShapeMeshes) : ShapeMeshes := m.draw .cone
/-- Modelled from the spec: `DrawTorusMesh()`. -/
def DrawTorusMesh (m : ShapeMeshes) : ShapeMeshes := m.draw .torus

end ShapeMeshes

/-- The member variables of class `SceneManager` that the embedded methods use.
`m_pShaderManager` is `none` for a NULL pointer. `m_basicMeshes` is the `ShapeMeshes`
object the manager owns. `m_loadedTextures` is an `int` that starts at 0 and is only
incremented, hence a `Nat`. -/
structure SceneManager (α : Type) where
  m_pShaderManager : Option (ShaderManager α)
  m_basicMeshes : ShapeMeshes
  m_loadedTextures : Nat
  m_textureIDs : Nat → TEXTURE_INFO
  m_objectMaterials : List (OBJECT_MATERIAL α)

/-- Modelled from the spec: the number of elements of the array `m_textureIDs`, declared
in `SceneManager.h` ("fixed upper bound (16 entries)"; the source's own comment on
`BindGLTextures` reads "There are up to 16 slots"). -/
def MAX_TEXTURES : Nat := 16

variable {α : Type}

/-- The constructor `SceneManager(ShaderManager*)`: a new `ShapeMeshes`, on which nothing
has been loaded or drawn, and no texture loaded. The array elements are
default-constructed: an empty tag and an indeterminate `ID`, given by `ids`. The vector
of materials is empty. -/
def SceneManager.new (pShaderManager : Option (ShaderManager α)) (ids : Nat → Nat) :
    SceneManager α :=
  { m_pShaderManager := pShaderManager
    m_basicMeshes := { loaded := [], drawn := [] }
    m_loadedTextures := 0
    m_textureIDs := fun i => { ID := ids i, tag := "" }
    m_objectMaterials := [] }

/-- What `stbi_load` reports about a decoded image file; the pixel bytes only travel on
to `glTexImage2D`. -/
structure Image where
  width : Int
  height : Int
  colorChannels : Int
deriving DecidableEq, Repr

/-- The method `CreateGLTexture(filename, tag)`. `image` is the result of `stbi_load` on
the file (`none` for the NULL pointer of a file that cannot be read) and `textureID` the
name that `glGenTextures` hands out. Returns the `bool` result and the state after the
call. The OpenGL calls that configure and upload the texture act on the GL context only
and are not part of the state.

The source stores into `m_textureIDs[m_loadedTextures]` without a test on the count. With
a count below `MAX_TEXTURES` the store is into the array and touches nothing else. With
a count of `MAX_TEXTURES` or more the store is past the end of the array (undefined
behaviour in C++): it lands on the memory behind the array, so the other members of the
object hold indeterminate values afterwards, those of `clobbered`; the count is still
incremented and the method still returns `true`. -/
def CreateGLTexture (s : SceneManager α) (image : Option Image) (textureID : Nat)
    (tag : String) (clobbered : SceneManager α) : Bool × SceneManager α :=
  match image with
  | some img =>
    if img.colorChannels = 3 ∨ img.colorChannels = 4 then
      -- m_textureIDs[m_loadedTextures].ID = textureID; .tag = tag; m_loadedTextures++
      if s.m_loadedTextures < MAX_TEXTURES then
        (true,
          { s with
            m_textureIDs := fun i =>
              if i = s.m_loadedTextures then { ID := textureID, tag := tag }
              else s.m_textureIDs i
            m_loadedTextures := s.m_loadedTextures + 1 })
      else
        (true,
          { clobbered with
            m_textureIDs := fun i =>
              if i = s.m_loadedTextures then { ID := textureID, tag := tag }
              else s.m_textureIDs i
            m_loadedTextures := s.m_loadedTextures + 1 })
    else
      (false, s)
  | none => (false, s)

/-- The registry as the spec describes it, "a fixed-capacity ordered sequence (insertion
order = texture unit assignment, indices 0..15)": the elements of the array
`m_textureIDs` below the count, oldest first. The array has no element at index
`MAX_TEXTURES` or beyond. -/
def registryEntries (s : SceneManager α) : List TEXTURE_INFO :=
  (List.range (min s.m_loadedTextures MAX_TEXTURES)).map s.m_textureIDs

/-- The conversion of a `GLuint` (32-bit unsigned) to `int` (32-bit two's complement)
done by the assignment `textureID = m_textureIDs[index].ID`. -/
def GLuint_to_int (u : Nat) : Int :=
  if u % 2 ^ 32 < 2 ^ 31 then ((u % 2 ^ 32 : Nat) : Int)
  else ((u % 2 ^ 32 : Nat) : Int) - 2 ^ 32

/-- The `while` loop of `FindTextureID`: the loop variables are `textureID`, `index` and
`bFound`; `fuel` bounds the number of iterations. -/
def FindTextureID_loop (s : SceneManager α) (tag : String) :
    Nat → Int → Nat → Bool → Int
  | 0, textureID, _, _ => textureID
  | fuel + 1, textureID, index, bFound =>
    if index < s.m_loadedTextures ∧ bFound = false then
      if (s.m_textureIDs index).tag = tag then
        FindTextureID_loop s tag fuel (GLuint_to_int (s.m_textureIDs index).ID) index true
      else
        FindTextureID_loop s tag fuel textureID (index + 1) bFound
    else textureID

/-- The method `FindTextureID(tag)`. The loop runs at most `m_loadedTextures` times. -/
def FindTextureID (s : SceneManager α) (tag : String) : Int :=
  FindTextureID_loop s tag (s.m_loadedTextures + 1) (-1) 0 false

/-- The `while` loop of `FindTextureSlot`: the loop variables are `textureSlot`, `index`
and `bFound`; `fuel` bounds the number of iterations. -/
def FindTextureSlot_loop (s : SceneManager α) (tag : String) :
    Nat → Int → Nat → Bool → Int
  | 0, textureSlot, _, _ => textureSlot
  | fuel + 1, textureSlot, index, bFound =>
    if index < s.m_loadedTextures ∧ bFound = false then
      if (s.m_textureIDs index).tag = tag then
        FindTextureSlot_loop s tag fuel (index : Int) index true
      else
        FindTextureSlot_loop s tag fuel textureSlot (index + 1) bFound
    else textureSlot

/-- The method `FindTextureSlot(tag)`. The loop runs at most `m_loadedTextures` times. -/
def FindTextureSlot (s : SceneManager α) (tag : String) : Int :=
  FindTextureSlot_loop s tag (s.m_loadedTextures + 1) (-1) 0 false

/-- The `while` loop of `FindMaterial`: the loop variables are `index`, `bFound` and the
reference parameter `material`; `fuel` bounds the number of iterations. -/
def FindMaterial_loop (s : SceneManager α) (tag : String) :
    Nat → Nat → Bool → OBJECT_MATERIAL α → OBJECT_MATERIAL α
  | 0, _, _, material => material
  | fuel + 1, index, bFound, material =>
    if h : index < s.m_objectMaterials.length ∧ bFound = false then
      if (s.m_objectMaterials.get ⟨index, h.1⟩).tag = tag then
        FindMaterial_loop s tag fuel index true
          { material with
            diffuseColor := (s.m_objectMaterials.get ⟨index, h.1⟩).diffuseColor
            specularColor := (s.m_objectMaterials.get ⟨index, h.1⟩).specularColor
            shininess := (s.m_objectMaterials.get ⟨index, h.1⟩).shininess }
      else
        FindMaterial_loop s tag fuel (index + 1) bFound material
    else material

/-- The method `FindMaterial(tag, material)`: the `bool` result and the content of the
reference parameter `material` after the call. The loop runs at most
`m_objectMaterials.size()` times. -/
def FindMaterial (s : SceneManager α) (tag : String) (material : OBJECT_MATERIAL α) :
    Bool × OBJECT_MATERIAL α :=
  if s.m_objectMaterials.length = 0 then
    (false, material)
  else
    (true, FindMaterial_loop s tag (s.m_objectMaterials.length + 1) 0 false material)

/-! ## glm functions used by `SetTransformations`

glm is a third-party library; these follow its implementation (`type_mat4x4.inl`,
`ext/matrix_transform.inl`, `detail/func_geometric.inl`, `detail/func_trigonometric.inl`). -/

/-- The functions of the C++ math library that glm calls. -/
structure MathLib (α : Type) where
  cos : α → α
  sin : α → α
  inversesqrt : α → α

section Glm

variable [Field α]

/-- Operator `vec4 + vec4`. -/
def vec4.add (a b : vec4 α) : vec4 α :=
  ⟨a.x + b.x, a.y + b.y, a.z + b.z, a.w + b.w⟩

/-- Operator `vec4 * scalar`. -/
def vec4.smul (a : vec4 α) (k : α) : vec4 α :=
  ⟨a.x * k, a.y * k, a.z * k, a.w * k⟩

/-- The matrix `glm::mat4(1.0f)`. -/
def mat4.identity : mat4 α :=
  ⟨⟨1, 0, 0, 0⟩, ⟨0, 1, 0, 0⟩, ⟨0, 0, 1, 0⟩, ⟨0, 0, 0, 1⟩⟩

/-- One column of `m1 * m2`: `m1[0] * b[0] + m1[1] * b[1] + m1[2] * b[2] + m1[3] * b[3]`.
This is also operator `mat4 * vec4`. -/
def mat4.mulVec (m : mat4 α) (v : vec4 α) : vec4 α :=
  (((m.c0.smul v.x).add (m.c1.smul v.y)).add (m.c2.smul v.z)).add (m.c3.smul v.w)

/-- Operator `mat4 * mat4`. -/
def mat4.mul (m1 m2 : mat4 α) : mat4 α :=
  ⟨m1.mulVec m2.c0, m1.mulVec m2.c1, m1.mulVec m2.c2, m1.mulVec m2.c3⟩

instance : Mul (mat4 α) := ⟨mat4.mul⟩

/-- The function `glm::radians(degrees)`. -/
def glm_radians (degrees : α) : α :=
  degrees * 0.01745329251994329576923690768489

/-- The function `glm::normalize(v)`: `v * inversesqrt(dot(v, v))`. -/
def glm_normalize (m : MathLib α) (v : vec3 α) : vec3 α :=
  let k := m.inversesqrt (v.x * v.x + v.y * v.y + v.z * v.z)
  ⟨v.x * k, v.y * k, v.z * k⟩

/-- The function `glm::scale(v)`, that is `glm::scale(mat4(1), v)`. -/
def glm_scale (v : vec3 α) : mat4 α :=
  let m : mat4 α := mat4.identity
  ⟨m.c0.smul v.x, m.c1.smul v.y, m.c2.smul v.z, m.c3⟩

/-- The function `glm::translate(v)`, that is `glm::translate(mat4(1), v)`. -/
def glm_translate (v : vec3 α) : mat4 α :=
  let m : mat4 α := mat4.identity
  ⟨m.c0, m.c1, m.c2, (((m.c0.smul v.x).add (m.c1.smul v.y)).add (m.c2.smul v.z)).add m.c3⟩

/-- The function `glm::rotate(angle, v)`, that is `glm::rotate(mat4(1), angle, v)`. -/
def glm_rotate (ml : MathLib α) (angle : α) (v : vec3 α) : mat4 α :=
  let c := ml.cos angle
  let s := ml.sin angle
  let axis := glm_normalize ml v
  let temp : vec3 α := ⟨(1 - c) * axis.x, (1 - c) * axis.y, (1 - c) * axis.z⟩
  let r00 := c + temp.x * axis.x
  let r01 := temp.x * axis.y + s * axis.z
  let r02 := temp.x * axis.z - s * axis.y
  let r10 := temp.y * axis.x - s * axis.z
  let r11 := c + temp.y * axis.y
  let r12 := temp.y * axis.z + s * axis.x
  let r20 := temp.z * axis.x + s * axis.y
  let r21 := temp.z * axis.y - s * axis.x
  let r22 := c + temp.z * axis.z
  let m : mat4 α := mat4.identity
  ⟨((m.c0.smul r00).add (m.c1.smul r01)).add (m.c2.smul r02),
   ((m.c0.smul r10).add (m.c1.smul r11)).add (m.c2.smul r12),
   ((m.c0.smul r20).add (m.c1.smul r21)).add (m.c2.smul r22),
   m.c3⟩

/-! ## Transform composer and shader state setters -/

/-- The method `SetTransformations(scaleXYZ, XrotationDegrees, YrotationDegrees,
ZrotationDegrees, positionXYZ)`. -/
def SetTransformations (ml : MathLib α) (s : SceneManager α) (scaleXYZ : vec3 α)
    (XrotationDegrees YrotationDegrees ZrotationDegrees : α) (positionXYZ : vec3 α) :
    SceneManager α :=
  let scale := glm_scale scaleXYZ
  let rotationX := glm_rotate ml (glm_radians XrotationDegrees) ⟨1, 0, 0⟩
  let rotationY := glm_rotate ml (glm_radians YrotationDegrees) ⟨0, 1, 0⟩
  let rotationZ := glm_rotate ml (glm_radians ZrotationDegrees) ⟨0, 0, 1⟩
  let translation := glm_translate positionXYZ
  let modelView := translation * rotationZ * rotationY * rotationX * scale
  match s.m_pShaderManager with
  | some sh => { s with m_pShaderManager := some (sh.setMat4Value g_ModelName modelView) }
  | none => s

end Glm

/-- The conversion of a `bool` argument to the `int` parameter of `setIntValue`. -/
def bool_to_int (b : Bool) : Int := if b then 1 else 0

/-- The method `SetShaderColor(redColorValue, greenColorValue, blueColorValue,
alphaValue)`. -/
def SetShaderColor (s : SceneManager α)
    (redColorValue greenColorValue blueColorValue alphaValue : α) : SceneManager α :=
  let currentColor : vec4 α := ⟨redColorValue, greenColorValue, blueColorValue, alphaValue⟩
  match s.m_pShaderManager with
  | some sh =>
    { s with
      m_pShaderManager :=
        some ((sh.setIntValue g_UseTextureName (bool_to_int false)).setVec4Value
          g_ColorValueName currentColor) }
  | none => s

/-- The method `SetShaderTexture(textureTag)`. -/
def SetShaderTexture (s : SceneManager α) (textureTag : String) : SceneManager α :=
  match s.m_pShaderManager with
  | some sh =>
    let sh1 := sh.setIntValue g_UseTextureName (bool_to_int true)
    let textureID := FindTextureSlot s textureTag
    { s with m_pShaderManager := some (sh1.setSampler2DValue g_TextureValueName textureID) }
  | none => s

/-- The method `SetTextureUVScale(u, v)`. -/
def SetTextureUVScale (s : SceneManager α) (u v : α) : SceneManager α :=
  match s.m_pShaderManager with
  | some sh => { s with m_pShaderManager := some (sh.setVec2Value "UVscale" ⟨u, v⟩) }
  | none => s

/-- The method `SetShaderMaterial(materialTag)`. The local `OBJECT_MATERIAL material;` is
default-initialised: its `tag` is the empty string and its other members hold
indeterminate values, those of `uninit`. The method dereferences `m_pShaderManager`
without a NULL test: `none` is the result of that dereference on a NULL pointer. -/
def SetShaderMaterial (s : SceneManager α) (materialTag : String)
    (uninit : OBJECT_MATERIAL α) : Option (SceneManager α) :=
  if s.m_objectMaterials.length > 0 then
    let material : OBJECT_MATERIAL α := { uninit with tag := "" }
    let (bReturn, material) := FindMaterial s materialTag material
    if bReturn = true then
      match s.m_pShaderManager with
      | some sh =>
        let sh1 := sh.setVec3Value "material.diffuseColor" material.diffuseColor
        let sh2 := sh1.setVec3Value "material.specularColor" material.specularColor
        let sh3 := sh2.setFloatValue "material.shininess" material.shininess
        let sh4 := sh3.setVec3Value "material.ambientColor" material.ambientColor
        let sh5 := sh4.setFloatValue "material.ambientStrength" material.ambientStrength
        some { s with m_pShaderManager := some sh5 }
      | none => none
    else some s
  else some s

/-- The method `DefineObjectMaterials()`. -/
def DefineObjectMaterials [Field α] (s : SceneManager α) : SceneManager α :=
  let glass : OBJECT_MATERIAL α :=
    { tag := "glass"
      diffuseColor := ⟨0.10, 0.10, 0.10⟩
      specularColor := ⟨0.90, 0.90, 0.90⟩
      shininess := 128.0
      ambientColor := ⟨0.60, 0.60, 0.60⟩
      ambientStrength := 40.0 }
  let s1 := { s with m_objectMaterials := s.m_objectMaterials ++ [glass] }
  let plastic : OBJECT_MATERIAL α :=
    { tag := "plastic"
      diffuseColor := ⟨0.2, 0.2, 0.2⟩
      specularColor := ⟨0.5, 0.5, 0.5⟩
      shininess := 80.0
      ambientColor := ⟨0.15, 0.15, 0.15⟩
      ambientStrength := 1.0 }
  { s1 with m_objectMaterials := s1.m_objectMaterials ++ [plastic] }

/-! ## Scene script -/

/-- The method `BindGLTextures()`: the bindings it issues, oldest first, each the texture
unit `i` (from `GL_TEXTURE0 + i`) and the texture name bound on it. They act on the GL
context only. -/
def BindGLTextures (s : SceneManager α) : List (Nat × Nat) :=
  (List.range s.m_loadedTextures).map (fun i => (i, (s.m_textureIDs i).ID))

/-- The method `LoadSceneTextures()`. `files` is what `stbi_load` returns for each file
name and `names` the texture name `glGenTextures` hands out while that file is loaded;
`clobbered n` is the `clobbered` argument of the `n`-th call of `CreateGLTexture`. The
results of the four calls are dropped, as in the source; the bindings of
`BindGLTextures` leave the state as it is. -/
def LoadSceneTextures (s : SceneManager α) (files : String → Option Image)
    (names : String → Nat) (clobbered : Nat → SceneManager α) : SceneManager α :=
  let s := (CreateGLTexture s (files "Textures/wood.jpg") (names "Textures/wood.jpg")
    "wood" (clobbered 0)).2
  let s := (CreateGLTexture s (files "Textures/keyboard.jpg")
    (names "Textures/keyboard.jpg") "keyboard" (clobbered 1)).2
  let s := (CreateGLTexture s (files "Textures/notebook.jpg")
    (names "Textures/notebook.jpg") "notebook" (clobbered 2)).2
  let s := (CreateGLTexture s (files "Textures/mug.jpg") (names "Textures/mug.jpg")
    "mug" (clobbered 3)).2
  s

section Script

variable [Field α]

/-- The method `SetupSceneLights()`. It dereferences `m_pShaderManager` without a NULL
test: `none` is the result of that dereference on a NULL pointer. -/
def SetupSceneLights (s : SceneManager α) : Option (SceneManager α) :=
  match s.m_pShaderManager with
  | some sh =>
    let sh := sh.setBoolValue "bUseLighting" true
    let sh := sh.setBoolValue "pointLights[2].bActive" true
    let sh := sh.setVec3Value "pointLights[2].position" ⟨-1.20, 1.00, -1.20⟩
    let sh := sh.setVec3Value "pointLights[2].ambient" ⟨0.32, 0.30, 0.22⟩
    let sh := sh.setVec3Value "pointLights[2].diffuse" ⟨3.00, 2.80, 2.50⟩
    let sh := sh.setVec3Value "pointLights[2].specular" ⟨3.50, 3.40, 3.10⟩
    some { s with m_pShaderManager := some sh }
  | none => none

/-- The method `PrepareScene()`; `files`, `names` and `clobbered` as in
`LoadSceneTextures`. -/
def PrepareScene (s : SceneManager α) (files : String → Option Image)
    (names : String → Nat) (clobbered : Nat → SceneManager α) : SceneManager α :=
  let s := DefineObjectMaterials s
  let s := LoadSceneTextures s files names clobbered
  let s := { s with m_basicMeshes := s.m_basicMeshes.LoadPlaneMesh }
  let s := { s with m_basicMeshes := s.m_basicMeshes.LoadCylinderMesh }
  let s := { s with m_basicMeshes := s.m_basicMeshes.LoadBoxMesh }
  let s := { s with m_basicMeshes := s.m_basicMeshes.LoadConeMesh }
  let s := { s with m_basicMeshes := s.m_basicMeshes.LoadSphereMesh }
  let s := { s with m_basicMeshes := s.m_basicMeshes.LoadTorusMesh }
  s

/-- The call `m_basicMeshes->DrawPlaneMesh()`. -/
def drawPlane (s : SceneManager α) : SceneManager α :=
  { s with m_basicMeshes := s.m_basicMeshes.DrawPlaneMesh }

/-- The call `m_basicMeshes->DrawCylinderMesh()`. -/
def drawCylinder (s : SceneManager α) : SceneManager α :=
  { s with m_basicMeshes := s.m_basicMeshes.DrawCylinderMesh }

/-- The call `m_basicMeshes->DrawBoxMesh()`. -/
def drawBox (s : SceneManager α) : SceneManager α :=
  { s with m_basicMeshes := s.m_basicMeshes.DrawBoxMesh }

/-- The call `m_basicMeshes->DrawConeMesh()`. -/
def drawCone (s : SceneManager α) : SceneManager α :=
  { s with m_basicMeshes := s.m_basicMeshes.DrawConeMesh }

/-- The call `m_basicMeshes->DrawTorusMesh()`. -/
def drawTorus (s : SceneManager α) : SceneManager α :=
  { s with m_basicMeshes := s.m_basicMeshes.DrawTorusMesh }

/-- The method `RenderScene()`, statement by statement. `uninit n` is the indeterminate
content of the local `material` in the `n`-th call of `SetShaderMaterial`. The result is
`none` when a NULL `m_pShaderManager` is dereferenced. -/
def RenderScene (ml : MathLib α) (s : SceneManager α) (uninit : Nat → OBJECT_MATERIAL α) :
    Option (SceneManager α) := do
  let s ← SetupSceneLights s
  -- the desk
  let XrotationDegrees : α := 0.0
  let YrotationDegrees : α := 0.0
  let ZrotationDegrees : α := 0.0
  let s := SetTransformations ml s ⟨20.0, 1.0, 10.0⟩ XrotationDegrees YrotationDegrees
    ZrotationDegrees ⟨0.0, 0.0, 0.0⟩
  let s := SetShaderColor s 0.96 0.87 0.70 1.0
  let s := SetShaderTexture s "wood"
  let s := drawPlane s
  -- base disk for computer
  let s := SetTransformations ml s ⟨0.70, 0.05, 0.70⟩ 0 0 0 ⟨0.0, 0.025, -1.0⟩
  let s := SetShaderColor s 1.0 1.0 1.0 1.0
  let s := drawCylinder s
  -- stand for computer
  let s := SetTransformations ml s ⟨0.10, 0.25, 0.10⟩ 0 0 0 ⟨0.0, 0.175, -1.0⟩
  let s := SetShaderColor s 1.0 1.0 1.0 1.0
  let s := drawCylinder s
  -- edges of the computer
  let s := SetTransformations ml s ⟨1.80, 0.50, 0.06⟩ 0 0 0 ⟨0.0, 0.55, -1.0⟩
  let s := SetShaderColor s 0.02 0.02 0.03 1.0
  let s ← SetShaderMaterial s "glass" (uninit 0)
  let s := drawBox s
  -- screen of the computer
  let s := SetTransformations ml s ⟨1.74, 0.45, 0.03⟩ 0 0 0 ⟨0.0, 0.550, -0.98⟩
  let s := SetShaderColor s 1.0 1.0 1.0 1.0
  let s ← SetShaderMaterial s "glass" (uninit 1)
  let s := drawBox s
  -- keyboard
  let s := SetTransformations ml s ⟨1.6, 0.05, 0.45⟩ 0 0 0 ⟨0.0, 0.025, 0.30⟩
  let s := SetShaderTexture s "keyboard"
  let s := drawBox s
  -- base of the mouse
  let s := SetTransformations ml s ⟨0.22, 0.05, 0.30⟩ 0 0 0 ⟨1.05, 0.025, 0.35⟩
  let s := SetShaderColor s 1.0 1.0 1.0 1.0
  let s ← SetShaderMaterial s "plastic" (uninit 2)
  let s := drawBox s
  -- hump simulating the arch of a mouse
  let s := SetTransformations ml s ⟨0.15, 0.10, 0.15⟩ 0 0 0 ⟨1.05, 0.100, 0.35⟩
  let s ← SetShaderMaterial s "plastic" (uninit 3)
  let s := drawCone s
  -- mug body
  let s := SetTransformations ml s ⟨0.20, 0.35, 0.20⟩ 0 0 0 ⟨1.8, 0.175, -0.6⟩
  let s := SetShaderColor s 0.5 0.5 0.5 1.0
  let s := drawCylinder s
  -- rim of the mug
  let s := SetTransformations ml s ⟨0.215, 0.015, 0.215⟩ 0 0 0 ⟨1.80, 0.3575, -0.6⟩
  let s := SetShaderColor s 0.5 0.5 0.5 1.0
  let s := drawCylinder s
  -- handle of the mug
  let XrotationDegrees : α := 180.0
  let YrotationDegrees : α := 0.0
  let ZrotationDegrees : α := 0.0
  let s := SetTransformations ml s ⟨0.13, 0.035, 0.13⟩ XrotationDegrees YrotationDegrees
    ZrotationDegrees ⟨2.02, 0.355, -0.60⟩
  let s := SetShaderColor s 0.5 0.5 0.5 1.0
  let s := drawTorus s
  -- pencil 1
  let s := SetTransformations ml s ⟨0.03, 0.5, 0.03⟩ 0 10.0 0 ⟨1.77, 0.18, -0.62⟩
  let s := SetShaderColor s 0.0 0.0 0.0 1.0
  let s := drawCylinder s
  -- tip of pencil 1
  let s := SetTransformations ml s ⟨0.03, 0.4, 0.03⟩ 0 10.0 0 ⟨1.77, 0.42, -0.62⟩
  let s := SetShaderColor s 0.30 0.20 0.15 1.0
  let s := drawCone s
  -- pencil 2
  let s := SetTransformations ml s ⟨0.03, 0.5, 0.03⟩ 0 (-8.0) 0 ⟨1.835, 0.175, -0.585⟩
  let s := SetShaderColor s 0.0 0.0 0.0 1.0
  let s := drawCylinder s
  -- tip of pencil 2
  let s := SetTransformations ml s ⟨0.03, 0.4, 0.03⟩ 0 (-8.0) 0 ⟨1.83, 0.425, -0.585⟩
  let s := SetShaderColor s 0.30 0.20 0.15 1.0
  let s := drawCone s
  -- pencil 3
  let s := SetTransformations ml s ⟨0.03, 0.4, 0.03⟩ 0 4.0 0 ⟨1.75, 0.178, -0.555⟩
  let s := SetShaderColor s 0.0 0.0 0.0 1.0
  let s := drawCylinder s
  -- tip of pencil 3
  let s := SetTransformations ml s ⟨0.03, 0.5, 0.03⟩ 0 4.0 0 ⟨1.75, 0.428, -0.555⟩
  let s := SetShaderColor s 0.30 0.20 0.15 1.0
  let s := drawCone s
  -- book 1
  let s := SetTransformations ml s ⟨0.40, 0.07, 0.60⟩ 0 0 0 ⟨-2.60, 0.035, -0.20⟩
  let s := SetShaderColor s 0.85 0.85 0.85 1.0
  let s := drawBox s
  -- book 2
  let s := SetTransformations ml s ⟨0.42, 0.08, 0.58⟩ 0 2.5 0 ⟨-2.10, 0.04, -0.18⟩
  let s := SetShaderColor s 0.85 0.85 0.85 1.0
  let s := drawBox s
  -- book 3
  let s := SetTransformations ml s ⟨0.38, 0.06, 0.62⟩ 0 (-6.0) 0 ⟨-1.7, 0.03, -0.22⟩
  let s := SetShaderColor s 0.85 0.85 0.85 1.0
  let s := drawBox s
  pure s

end Script

/-- The twenty draw calls of `RenderScene`, in the order of the source. -/
def sceneDraws : List MeshKind :=
  [.plane, .cylinder, .cylinder, .box, .box, .box, .box, .cone, .cylinder, .cylinder,
    .torus, .cylinder, .cone, .cylinder, .cone, .cylinder, .cone, .box, .box, .box]

/-! ## Example registries -/

/-- The registry after loading, into a fresh manager, three decodable images under the
tags "wood", "keyboard", "mug", in that order; GL hands out the names 11, 12, 13. -/
def registryWoodKeyboardMug : SceneManager α :=
  let s0 : SceneManager α := SceneManager.new none (fun _ => 0)
  let s1 := (CreateGLTexture s0 (some ⟨64, 64, 3⟩) 11 "wood" s0).2
  let s2 := (CreateGLTexture s1 (some ⟨64, 64, 3⟩) 12 "keyboard" s0).2
  (CreateGLTexture s2 (some ⟨64, 64, 4⟩) 13 "mug" s0).2

/-- A registry with duplicate tags: "wood", "wood", "mug", "mug" loaded in that order
under the GL names 21, 22, 23, 24. -/
def registryDuplicates : SceneManager α :=
  let s0 : SceneManager α := SceneManager.new none (fun _ => 0)
  let s1 := (CreateGLTexture s0 (some ⟨64, 64, 3⟩) 21 "wood" s0).2
  let s2 := (CreateGLTexture s1 (some ⟨64, 64, 3⟩) 22 "wood" s0).2
  let s3 := (CreateGLTexture s2 (some ⟨64, 64, 3⟩) 23 "mug" s0).2
  (CreateGLTexture s3 (some ⟨64, 64, 3⟩) 24 "mug" s0).2

/-- A registry holding one texture, tagged "mug", whose GL name is the largest `GLuint`. -/
def registryLargeHandle : SceneManager α :=
  (CreateGLTexture (SceneManager.new none (fun _ => 0)) (some ⟨64, 64, 3⟩) 4294967295 "mug"
    (SceneManager.new none (fun _ => 0))).2

/-! ## Sequences of load calls -/

/-- One call of `CreateGLTexture`: what `stbi_load` returns for the file, the name that
`glGenTextures` hands out, and the tag argument. -/
structure LoadCall where
  image : Option Image
  textureID : Nat
  tag : String
deriving DecidableEq, Repr

/-- The state after a sequence of `CreateGLTexture` calls, the results being dropped as
in `LoadSceneTextures`. `clobbered n` is the `clobbered` argument of a call made at
the count `n`. -/
def loadSequence (s : SceneManager α) (clobbered : Nat → SceneManager α) :
    List LoadCall → SceneManager α
  | [] => s
  | c :: cs =>
    loadSequence (CreateGLTexture s c.image c.textureID c.tag (clobbered s.m_loadedTextures)).2
      clobbered cs

/-- The number of calls of a sequence, run from state `s`, for which `CreateGLTexture`
returns `true`. -/
def successfulLoads (s : SceneManager α) (clobbered : Nat → SceneManager α) :
    List LoadCall → Nat
  | [] => 0
  | c :: cs =>
    (if (CreateGLTexture s c.image c.textureID c.tag (clobbered s.m_loadedTextures)).1 = true
      then 1 else 0) +
      successfulLoads (CreateGLTexture s c.image c.textureID c.tag (clobbered s.m_loadedTextures)).2
        clobbered cs

/-- The array indices that a sequence of calls, run from state `s`, writes: each
successful call writes `m_textureIDs[m_loadedTextures]` at the count it finds. -/
def writtenSlots (s : SceneManager α) (clobbered : Nat → SceneManager α) :
    List LoadCall → List Nat
  | [] => []
  | c :: cs =>
    (if (CreateGLTexture s c.image c.textureID c.tag (clobbered s.m_loadedTextures)).1 = true
      then [s.m_loadedTextures] else []) ++
      writtenSlots (CreateGLTexture s c.image c.textureID c.tag (clobbered s.m_loadedTextures)).2
        clobbered cs

/-- The four calls of `LoadSceneTextures`, for files that all decode as RGB images. -/
def sceneTextureCalls : List LoadCall :=
  [{ image := some ⟨512, 512, 3⟩, textureID := 1, tag := "wood" },
   { image := some ⟨512, 512, 3⟩, textureID := 2, tag := "keyboard" },
   { image := some ⟨512, 512, 3⟩, textureID := 3, tag := "notebook" },
   { image := some ⟨512, 512, 3⟩, textureID := 4, tag := "mug" }]

/-- Sixteen loads of a decodable RGB image into a fresh manager, under the tags
"t" and the GL names 1. -/
def registryFull : SceneManager α :=
  loadSequence (SceneManager.new none (fun _ => 0))
    (fun _ => SceneManager.new none (fun _ => 0))
    (List.replicate 16 { image := some ⟨64, 64, 3⟩, textureID := 1, tag := "t" })

/-! ## Reading the shader state -/

/-- The value of the uniform `name` in the shader program the manager points to; `none`
with a NULL `m_pShaderManager` or a name never written. -/
def uniformOf (s : SceneManager α) (name : String) : Option (UniformValue α) :=
  match s.m_pShaderManager with
  | some sh => sh.uniforms name
  | none => none

/-- A shader program none of whose uniforms has been written. -/
def ShaderManager.fresh : ShaderManager α := { uniforms := fun _ => none }

/-! ## The transform in the spec's words

"`M = Translation * RotationZ * RotationY * RotationX * Scale`", "scale is applied first to
object-local geometry, then X-rotation, then Y, then Z, then translation". The matrices
are the textbook ones, for column vectors, written column by column; `c` and `s` are the
cosine and sine of the angle. -/

section SpecTransform

variable [Field α]

/-- Spec side: the translation matrix by `t`. -/
def translationMatrix (t : vec3 α) : mat4 α :=
  ⟨⟨1, 0, 0, 0⟩, ⟨0, 1, 0, 0⟩, ⟨0, 0, 1, 0⟩, ⟨t.x, t.y, t.z, 1⟩⟩

/-- Spec side: the rotation matrix about the X axis. -/
def rotationXMatrix (c s : α) : mat4 α :=
  ⟨⟨1, 0, 0, 0⟩, ⟨0, c, s, 0⟩, ⟨0, -s, c, 0⟩, ⟨0, 0, 0, 1⟩⟩

/-- Spec side: the rotation matrix about the Y axis. -/
def rotationYMatrix (c s : α) : mat4 α :=
  ⟨⟨c, 0, -s, 0⟩, ⟨0, 1, 0, 0⟩, ⟨s, 0, c, 0⟩, ⟨0, 0, 0, 1⟩⟩

/-- Spec side: the rotation matrix about the Z axis. -/
def rotationZMatrix (c s : α) : mat4 α :=
  ⟨⟨c, s, 0, 0⟩, ⟨-s, c, 0, 0⟩, ⟨0, 0, 1, 0⟩, ⟨0, 0, 0, 1⟩⟩

/-- Spec side: the scale matrix. -/
def scaleMatrix (k : vec3 α) : mat4 α :=
  ⟨⟨k.x, 0, 0, 0⟩, ⟨0, k.y, 0, 0⟩, ⟨0, 0, k.z, 0⟩, ⟨0, 0, 0, 1⟩⟩

end SpecTransform

/-- A math library over the rationals, for evaluation: `cos` and `sin` are exact at 0
and take the values `3 / 5` and `4 / 5` elsewhere; `inversesqrt` is one Newton step
from 1. -/
def MathLib.sample : MathLib ℚ :=
  { cos := fun x => if x = 0 then 1 else 3 / 5
    sin := fun x => if x = 0 then 0 else 4 / 5
    inversesqrt := fun x => (3 - x) / 2 }

/-! ## Example material tables -/

/-- A fresh manager attached to the shader program `sh`, after `DefineObjectMaterials`. -/
def sceneWithMaterials (sh : ShaderManager ℚ) : SceneManager ℚ :=
  DefineObjectMaterials (SceneManager.new (some sh) (fun _ => 0))

/-- An `OBJECT_MATERIAL` all of whose members are zero. -/
def zeroMaterial : OBJECT_MATERIAL ℚ :=
  { ambientStrength := 0
    ambientColor := ⟨0, 0, 0⟩
    diffuseColor := ⟨0, 0, 0⟩
    specularColor := ⟨0, 0, 0⟩
    shininess := 0
    tag := "" }

/-! ## Lemmas on the lookup loops -/

theorem FindTextureSlot_loop_found (s : SceneManager α) (tag : String) (fuel : Nat)
    (textureSlot : Int) (index : Nat) :
    FindTextureSlot_loop s tag fuel textureSlot index true = textureSlot := by
  cases fuel <;> simp [FindTextureSlot_loop]

/-- Once `bFound` is set the loop of `FindTextureID` exits with the handle it holds. -/
theorem FindTextureID_loop_found (s : SceneManager α) (tag : String) (fuel : Nat)
    (textureID : Int) (index : Nat) :
    FindTextureID_loop s tag fuel textureID index true = textureID := by
  cases fuel <;> simp [FindTextureID_loop]

/-- The scan from `index` on, with enough fuel: either no entry from `index` up to the
count carries the tag and the result is the initial value, or the result is the first
index from `index` on whose entry carries the tag. -/
theorem FindTextureSlot_loop_scan (s : SceneManager α) (tag : String) (init : Int) :
    ∀ (fuel index : Nat), s.m_loadedTextures < index + fuel →
      (FindTextureSlot_loop s tag fuel init index false = init ∧
        ∀ j, index ≤ j → j < s.m_loadedTextures → (s.m_textureIDs j).tag ≠ tag) ∨
      (∃ i : Nat, FindTextureSlot_loop s tag fuel init index false = (i : Int) ∧
        index ≤ i ∧ i < s.m_loadedTextures ∧ (s.m_textureIDs i).tag = tag ∧
        ∀ j, index ≤ j → j < i → (s.m_textureIDs j).tag ≠ tag) := by
  intro fuel
  induction fuel with
  | zero =>
    intro index h
    left
    refine ⟨by simp [FindTextureSlot_loop], ?_⟩
    intro j hj hlt
    omega
  | succ n ih =>
    intro index h
    by_cases hlt : index < s.m_loadedTextures
    · by_cases htag : (s.m_textureIDs index).tag = tag
      · right
        refine ⟨index, ?_, le_refl _, hlt, htag, ?_⟩
        · simp [FindTextureSlot_loop, hlt, htag, FindTextureSlot_loop_found]
        · intro j h1 h2
          omega
      · have hstep : FindTextureSlot_loop s tag (n + 1) init index false =
            FindTextureSlot_loop s tag n init (index + 1) false := by
          simp [FindTextureSlot_loop, hlt, htag]
        rw [hstep]
        rcases ih (index + 1) (by omega) with ⟨h1, h2⟩ | ⟨i, h1, h2, h3, h4, h5⟩
        · left
          refine ⟨h1, ?_⟩
          intro j hj hjlt
          rcases Nat.eq_or_lt_of_le hj with heq | hgt
          · subst heq
            exact htag
          · exact h2 j hgt hjlt
        · right
          refine ⟨i, h1, by omega, h3, h4, ?_⟩
          intro j hj hji
          rcases Nat.eq_or_lt_of_le hj with heq | hgt
          · subst heq
            exact htag
          · exact h5 j hgt hji
    · left
      refine ⟨by simp [FindTextureSlot_loop, hlt], ?_⟩
      intro j hj hjlt
      omega

/-- The scan of `FindTextureID` from `index` on, with enough fuel. -/
theorem FindTextureID_loop_scan (s : SceneManager α) (tag : String) (init : Int) :
    ∀ (fuel index : Nat), s.m_loadedTextures < index + fuel →
      (FindTextureID_loop s tag fuel init index false = init ∧
        ∀ j, index ≤ j → j < s.m_loadedTextures → (s.m_textureIDs j).tag ≠ tag) ∨
      (∃ i : Nat, FindTextureID_loop s tag fuel init index false =
          GLuint_to_int (s.m_textureIDs i).ID ∧
        index ≤ i ∧ i < s.m_loadedTextures ∧ (s.m_textureIDs i).tag = tag ∧
        ∀ j, index ≤ j → j < i → (s.m_textureIDs j).tag ≠ tag) := by
  intro fuel
  induction fuel with
  | zero =>
    intro index h
    left
    refine ⟨by simp [FindTextureID_loop], ?_⟩
    intro j hj hlt
    omega
  | succ n ih =>
    intro index h
    by_cases hlt : index < s.m_loadedTextures
    · by_cases htag : (s.m_textureIDs index).tag = tag
      · right
        refine ⟨index, ?_, le_refl _, hlt, htag, ?_⟩
        · simp [FindTextureID_loop, hlt, htag, FindTextureID_loop_found]
        · intro j h1 h2
          omega
      · have hstep : FindTextureID_loop s tag (n + 1) init index false =
            FindTextureID_loop s tag n init (index + 1) false := by
          simp [FindTextureID_loop, hlt, htag]
        rw [hstep]
        rcases ih (index + 1) (by omega) with ⟨h1, h2⟩ | ⟨i, h1, h2, h3, h4, h5⟩
        · left
          refine ⟨h1, ?_⟩
          intro j hj hjlt
          rcases Nat.eq_or_lt_of_le hj with heq | hgt
          · subst heq
            exact htag
          · exact h2 j hgt hjlt
        · right
          refine ⟨i, h1, by omega, h3, h4, ?_⟩
          intro j hj hji
          rcases Nat.eq_or_lt_of_le hj with heq | hgt
          · subst heq
            exact htag
          · exact h5 j hgt hji
    · left
      refine ⟨by simp [FindTextureID_loop, hlt], ?_⟩
      intro j hj hjlt
      omega

/-- The result of `FindTextureSlot`: `-1` with no loaded entry carrying the tag, or the
first index whose entry carries it. -/
theorem FindTextureSlot_cases (s : SceneManager α) (tag : String) :
    (FindTextureSlot s tag = -1 ∧
        ∀ j, j < s.m_loadedTextures → (s.m_textureIDs j).tag ≠ tag) ∨
      (∃ i : Nat, FindTextureSlot s tag = (i : Int) ∧ i < s.m_loadedTextures ∧
        (s.m_textureIDs i).tag = tag ∧ ∀ j, j < i → (s.m_textureIDs j).tag ≠ tag) := by
  rcases FindTextureSlot_loop_scan s tag (-1) (s.m_loadedTextures + 1) 0 (by omega) with
    ⟨h1, h2⟩ | ⟨i, h1, _, h3, h4, h5⟩
  · left
    exact ⟨h1, fun j hj => h2 j (Nat.zero_le j) hj⟩
  · right
    exact ⟨i, h1, h3, h4, fun j hj => h5 j (Nat.zero_le j) hj⟩

/-- The result of `FindTextureID`: `-1` with no loaded entry carrying the tag, or the
handle, converted to `int`, of the first entry that carries it. -/
theorem FindTextureID_cases (s : SceneManager α) (tag : String) :
    (FindTextureID s tag = -1 ∧
        ∀ j, j < s.m_loadedTextures → (s.m_textureIDs j).tag ≠ tag) ∨
      (∃ i : Nat, FindTextureID s tag = GLuint_to_int (s.m_textureIDs i).ID ∧
        i < s.m_loadedTextures ∧
        (s.m_textureIDs i).tag = tag ∧ ∀ j, j < i → (s.m_textureIDs j).tag ≠ tag) := by
  rcases FindTextureID_loop_scan s tag (-1) (s.m_loadedTextures + 1) 0 (by omega) with
    ⟨h1, h2⟩ | ⟨i, h1, _, h3, h4, h5⟩
  · left
    exact ⟨h1, fun j hj => h2 j (Nat.zero_le j) hj⟩
  · right
    exact ⟨i, h1, h3, h4, fun j hj => h5 j (Nat.zero_le j) hj⟩

/-- Two first matches of the same tag are the same index. -/
theorem first_match_unique (s : SceneManager α) (tag : String) (i k : Nat)
    (hi : (s.m_textureIDs i).tag = tag) (hi2 : ∀ j, j < i → (s.m_textureIDs j).tag ≠ tag)
    (hk : (s.m_textureIDs k).tag = tag) (hk2 : ∀ j, j < k → (s.m_textureIDs j).tag ≠ tag) :
    i = k := by
  rcases Nat.lt_trichotomy i k with h | h | h
  · exact absurd hi (hk2 i h)
  · exact h
  · exact absurd hk (hi2 k h)


/-! ## Texture lookup -/

/-- Claim C1. `FindTextureSlot` returns the smallest index below the loaded-texture count
whose entry carries the tag, and `-1` exactly when no loaded entry carries it; so it is
`-1` for every tag on an empty registry. After loading "wood", "keyboard", "mug" the
slots are 0, 1, 2, and with duplicate tags the first entry in insertion order wins. -/
theorem FindTextureSlot_first_match (s : SceneManager α) (tag : String) :
    (∀ i : Nat, FindTextureSlot s tag = (i : Int) ↔
      (i < s.m_loadedTextures ∧ (s.m_textureIDs i).tag = tag ∧
        ∀ j, j < i → (s.m_textureIDs j).tag ≠ tag)) ∧
    (FindTextureSlot s tag = -1 ↔
      ∀ j, j < s.m_loadedTextures → (s.m_textureIDs j).tag ≠ tag) ∧
    (FindTextureSlot s tag = -1 ∨
      ∃ i : Nat, i < s.m_loadedTextures ∧ FindTextureSlot s tag = (i : Int)) ∧
    FindTextureSlot { s with m_loadedTextures := 0 } tag = -1 ∧
    FindTextureSlot (SceneManager.new s.m_pShaderManager (fun _ => 0)) tag = -1 ∧
    (FindTextureSlot (registryWoodKeyboardMug : SceneManager α) "wood" = 0 ∧
      FindTextureSlot (registryWoodKeyboardMug : SceneManager α) "keyboard" = 1 ∧
      FindTextureSlot (registryWoodKeyboardMug : SceneManager α) "mug" = 2) ∧
    (FindTextureSlot (registryDuplicates : SceneManager α) "wood" = 0 ∧
      FindTextureSlot (registryDuplicates : SceneManager α) "mug" = 2) := by
  refine ⟨?_, ?_, ?_, ?_, ?_, ?_, ?_⟩
  · intro i
    constructor
    · intro h
      rcases FindTextureSlot_cases s tag with ⟨h1, _⟩ | ⟨k, h1, h2, h3, h4⟩
      · rw [h1] at h
        omega
      · rw [h1] at h
        have hk : k = i := by exact_mod_cast h
        subst hk
        exact ⟨h2, h3, h4⟩
    · rintro ⟨h2, h3, h4⟩
      rcases FindTextureSlot_cases s tag with ⟨_, h5⟩ | ⟨k, h1, _, h6, h7⟩
      · exact absurd h3 (h5 i h2)
      · rw [h1, first_match_unique s tag k i h6 h7 h3 h4]
  · constructor
    · intro h
      rcases FindTextureSlot_cases s tag with ⟨_, h5⟩ | ⟨k, h1, _, _, _⟩
      · exact h5
      · rw [h1] at h
        omega
    · intro h
      rcases FindTextureSlot_cases s tag with ⟨h1, _⟩ | ⟨k, _, h2, h3, _⟩
      · exact h1
      · exact absurd h3 (h k h2)
  · rcases FindTextureSlot_cases s tag with ⟨h1, _⟩ | ⟨k, h1, h2, _, _⟩
    · exact Or.inl h1
    · exact Or.inr ⟨k, h2, h1⟩
  · rfl
  · rfl
  · exact ⟨rfl, rfl, rfl⟩
  · exact ⟨rfl, rfl⟩

/-- The `int` conversion of a handle below `2 ^ 31` is the handle. -/
theorem GLuint_to_int_small (u : Nat) (h : u < 2 ^ 31) : GLuint_to_int u = (u : Int) := by
  have h1 : u % 2 ^ 32 = u := Nat.mod_eq_of_lt (by omega)
  unfold GLuint_to_int
  rw [h1, if_pos h]

/-- Claim C2, as stated, fails: a texture whose GL name is `4294967295`, loaded under
"mug", is found at slot 0, and `FindTextureID "mug"` is `-1`, not that handle. -/
theorem FindTextureID_large_handle :
    FindTextureSlot (registryLargeHandle : SceneManager ℚ) "mug" = 0 ∧
    ((registryLargeHandle : SceneManager ℚ).m_textureIDs 0).ID = 4294967295 ∧
    FindTextureID (registryLargeHandle : SceneManager ℚ) "mug" = -1 ∧
    FindTextureID (registryLargeHandle : SceneManager ℚ) "mug" ≠
      (((registryLargeHandle : SceneManager ℚ).m_textureIDs 0).ID : Int) := by
  refine ⟨by decide, by decide, by decide, by decide⟩

/-- Claim C2, amended. `FindTextureID` returns the handle of the first entry, in insertion
order, that carries the tag, converted from 32-bit unsigned to `int` (the handle itself
when it is below `2 ^ 31`), and `-1` when no loaded entry carries the tag; it is `-1`
when `FindTextureSlot` is `-1` and otherwise the `int` conversion of the handle stored at
index `FindTextureSlot`. -/
theorem FindTextureID_first_match (s : SceneManager α) (tag : String) :
    (FindTextureID s tag =
      if FindTextureSlot s tag = -1 then -1
      else GLuint_to_int (s.m_textureIDs (FindTextureSlot s tag).toNat).ID) ∧
    ((FindTextureID s tag = -1 ∧
        ∀ j, j < s.m_loadedTextures → (s.m_textureIDs j).tag ≠ tag) ∨
      (∃ i : Nat, i < s.m_loadedTextures ∧ (s.m_textureIDs i).tag = tag ∧
        (∀ j, j < i → (s.m_textureIDs j).tag ≠ tag) ∧
        FindTextureID s tag = GLuint_to_int (s.m_textureIDs i).ID ∧
        (FindTextureID s tag = ((s.m_textureIDs i).ID : Int) ∨
          2 ^ 31 ≤ (s.m_textureIDs i).ID))) ∧
    (FindTextureID (registryWoodKeyboardMug : SceneManager α) "wood" = 11 ∧
      FindTextureID (registryWoodKeyboardMug : SceneManager α) "keyboard" = 12 ∧
      FindTextureID (registryWoodKeyboardMug : SceneManager α) "mug" = 13 ∧
      FindTextureID (registryDuplicates : SceneManager α) "mug" = 23) := by
  refine ⟨?_, ?_, ⟨rfl, rfl, rfl, rfl⟩⟩
  · rcases FindTextureSlot_cases s tag with ⟨h1, h2⟩ | ⟨i, h1, h2, h3, h4⟩
    · rcases FindTextureID_cases s tag with ⟨h5, _⟩ | ⟨k, _, h6, h7, _⟩
      · simp [h1, h5]
      · exact absurd h7 (h2 k h6)
    · rcases FindTextureID_cases s tag with ⟨_, h5⟩ | ⟨k, h6, _, h7, h8⟩
      · exact absurd h3 (h5 i h2)
      · have hik : k = i := first_match_unique s tag k i h7 h8 h3 h4
        subst hik
        have hne : ¬ ((k : Int) = -1) := by omega
        simp [h1, h6, hne]
  · rcases FindTextureID_cases s tag with ⟨h5, h6⟩ | ⟨k, h6, h7, h8, h9⟩
    · exact Or.inl ⟨h5, h6⟩
    · right
      refine ⟨k, h7, h8, h9, h6, ?_⟩
      by_cases hsmall : (s.m_textureIDs k).ID < 2 ^ 31
      · left
        rw [h6, GLuint_to_int_small _ hsmall]
      · right
        omega

/-! ## Texture loading -/

/-- A call changes the count by one if it succeeds and not at all if it fails. -/
theorem CreateGLTexture_count (s : SceneManager α) (c : LoadCall)
    (clobbered : SceneManager α) :
    (CreateGLTexture s c.image c.textureID c.tag clobbered).2.m_loadedTextures =
      s.m_loadedTextures +
        (if (CreateGLTexture s c.image c.textureID c.tag clobbered).1 = true then 1
          else 0) := by
  rcases c with ⟨image, textureID, tag⟩
  cases image with
  | none => simp [CreateGLTexture]
  | some img =>
    by_cases h : img.colorChannels = 3 ∨ img.colorChannels = 4
    · by_cases hb : s.m_loadedTextures < MAX_TEXTURES
      · simp [CreateGLTexture, h, hb]
      · simp [CreateGLTexture, h, hb]
    · simp [CreateGLTexture, h]

/-- The count after a sequence of calls is the count before plus the number of
successful calls. -/
theorem loadSequence_count (clobbered : Nat → SceneManager α) (calls : List LoadCall) :
    ∀ s : SceneManager α,
      (loadSequence s clobbered calls).m_loadedTextures =
        s.m_loadedTextures + successfulLoads s clobbered calls := by
  induction calls with
  | nil => intro s; simp [loadSequence, successfulLoads]
  | cons c cs ih =>
    intro s
    rw [loadSequence, ih, successfulLoads, CreateGLTexture_count]
    omega

/-- A successful call made below the capacity, written out. -/
theorem CreateGLTexture_in_bounds (s : SceneManager α) (img : Image) (textureID : Nat)
    (tag : String) (clobbered : SceneManager α)
    (h : img.colorChannels = 3 ∨ img.colorChannels = 4)
    (hb : s.m_loadedTextures < MAX_TEXTURES) :
    CreateGLTexture s (some img) textureID tag clobbered =
      (true,
        { s with
          m_textureIDs := fun i =>
            if i = s.m_loadedTextures then { ID := textureID, tag := tag }
            else s.m_textureIDs i
          m_loadedTextures := s.m_loadedTextures + 1 }) := by
  simp [CreateGLTexture, h, hb]

/-- Claim C3, as stated, fails: on a registry that holds 16 entries a call with a
decodable 3-channel image returns `true`, but the index it stores at, 16, is no element
of the 16-element array, so the registry holds the same 16 entries as before; the store
lands behind the array, and the materials after the call are indeterminate, not those
before it. -/
theorem CreateGLTexture_success_full_registry :
    ((⟨64, 64, 3⟩ : Image).colorChannels = 3 ∨ (⟨64, 64, 3⟩ : Image).colorChannels = 4) ∧
    (registryFull : SceneManager ℚ).m_loadedTextures = 16 ∧
    (CreateGLTexture (registryFull : SceneManager ℚ) (some ⟨64, 64, 3⟩) 99 "extra"
      (sceneWithMaterials ShaderManager.fresh)).1 = true ∧
    ¬ ((registryFull : SceneManager ℚ).m_loadedTextures < MAX_TEXTURES) ∧
    registryEntries (CreateGLTexture (registryFull : SceneManager ℚ) (some ⟨64, 64, 3⟩) 99
      "extra" (sceneWithMaterials ShaderManager.fresh)).2 =
      registryEntries (registryFull : SceneManager ℚ) ∧
    registryEntries (CreateGLTexture (registryFull : SceneManager ℚ) (some ⟨64, 64, 3⟩) 99
      "extra" (sceneWithMaterials ShaderManager.fresh)).2 ≠
      registryEntries (registryFull : SceneManager ℚ) ++ [{ ID := 99, tag := "extra" }] ∧
    (CreateGLTexture (registryFull : SceneManager ℚ) (some ⟨64, 64, 3⟩) 99 "extra"
      (sceneWithMaterials ShaderManager.fresh)).2.m_objectMaterials.length = 2 ∧
    (registryFull : SceneManager ℚ).m_objectMaterials.length = 0 := by
  refine ⟨by decide, by decide, by decide, by decide, by decide, by decide, rfl, rfl⟩

/-- Claim C3, amended. On a registry that holds fewer than 16 entries, for an image that
decodes with 3 or 4 channels, `CreateGLTexture` returns `true` and appends one entry: the
count grows by one, the entry at the old count holds the handle and the tag argument,
every other array element, the materials, the shader pointer and the meshes are
unchanged, and the registry is the one before followed by the new entry; after any
sequence of calls on a fresh manager of which fewer than 16 succeeded, the old count is
the number of calls that succeeded. -/
theorem CreateGLTexture_success (s : SceneManager α) (img : Image) (textureID : Nat)
    (tag : String) (clobbered : SceneManager α)
    (h : img.colorChannels = 3 ∨ img.colorChannels = 4)
    (hb : s.m_loadedTextures < MAX_TEXTURES) :
    (CreateGLTexture s (some img) textureID tag clobbered).1 = true ∧
    (CreateGLTexture s (some img) textureID tag clobbered).2.m_loadedTextures =
      s.m_loadedTextures + 1 ∧
    (CreateGLTexture s (some img) textureID tag clobbered).2.m_textureIDs
      s.m_loadedTextures = { ID := textureID, tag := tag } ∧
    (∀ i, i ≠ s.m_loadedTextures →
      (CreateGLTexture s (some img) textureID tag clobbered).2.m_textureIDs i =
        s.m_textureIDs i) ∧
    (CreateGLTexture s (some img) textureID tag clobbered).2.m_objectMaterials =
      s.m_objectMaterials ∧
    (CreateGLTexture s (some img) textureID tag clobbered).2.m_pShaderManager =
      s.m_pShaderManager ∧
    (CreateGLTexture s (some img) textureID tag clobbered).2.m_basicMeshes =
      s.m_basicMeshes ∧
    registryEntries (CreateGLTexture s (some img) textureID tag clobbered).2 =
      registryEntries s ++ [{ ID := textureID, tag := tag }] ∧
    (∀ (sh : Option (ShaderManager α)) (ids : Nat → Nat) (cl : Nat → SceneManager α)
      (calls : List LoadCall),
      successfulLoads (SceneManager.new sh ids) cl calls < MAX_TEXTURES →
      (CreateGLTexture (loadSequence (SceneManager.new sh ids) cl calls) (some img)
          textureID tag clobbered).2.m_textureIDs
          (successfulLoads (SceneManager.new sh ids) cl calls) =
        { ID := textureID, tag := tag } ∧
      (CreateGLTexture (loadSequence (SceneManager.new sh ids) cl calls) (some img)
          textureID tag clobbered).2.m_loadedTextures =
        successfulLoads (SceneManager.new sh ids) cl calls + 1) := by
  have key := CreateGLTexture_in_bounds s img textureID tag clobbered h hb
  refine ⟨?_, ?_, ?_, ?_, ?_, ?_, ?_, ?_, ?_⟩
  · rw [key]
  · rw [key]
  · rw [key]; simp
  · intro i hi
    rw [key]; simp [hi]
  · rw [key]
  · rw [key]
  · rw [key]
  · rw [key]
    have h1 : min (s.m_loadedTextures + 1) MAX_TEXTURES = s.m_loadedTextures + 1 :=
      Nat.min_eq_left hb
    have h2 : min s.m_loadedTextures MAX_TEXTURES = s.m_loadedTextures :=
      Nat.min_eq_left (Nat.le_of_lt hb)
    simp only [registryEntries, h1, h2, List.range_succ, List.map_append, List.map_cons,
      List.map_nil, if_true]
    congr 1
    apply List.map_congr_left
    intro i hi
    have hlt : i < s.m_loadedTextures := List.mem_range.mp hi
    have hne : i ≠ s.m_loadedTextures := Nat.ne_of_lt hlt
    simp [hne]
  · intro sh ids cl calls hlt
    have hc := loadSequence_count cl calls (SceneManager.new sh ids)
    have h0 : (SceneManager.new sh ids).m_loadedTextures = 0 := rfl
    rw [h0, Nat.zero_add] at hc
    have key2 := CreateGLTexture_in_bounds (loadSequence (SceneManager.new sh ids) cl calls)
      img textureID tag clobbered h (by rw [hc]; exact hlt)
    rw [key2]
    simp [hc]

/-- Claim C3, amended, at a concrete call: a 4-channel image loaded under "notebook" into
the registry holding "wood", "keyboard" and "mug". -/
theorem CreateGLTexture_success_witness :
    ((⟨64, 64, 4⟩ : Image).colorChannels = 3 ∨ (⟨64, 64, 4⟩ : Image).colorChannels = 4) ∧
    (registryWoodKeyboardMug : SceneManager ℚ).m_loadedTextures < MAX_TEXTURES ∧
    (CreateGLTexture (registryWoodKeyboardMug : SceneManager ℚ) (some ⟨64, 64, 4⟩) 14
      "notebook" (sceneWithMaterials ShaderManager.fresh)).1 = true ∧
    (CreateGLTexture (registryWoodKeyboardMug : SceneManager ℚ) (some ⟨64, 64, 4⟩) 14
      "notebook" (sceneWithMaterials ShaderManager.fresh)).2.m_loadedTextures = 4 ∧
    (CreateGLTexture (registryWoodKeyboardMug : SceneManager ℚ) (some ⟨64, 64, 4⟩) 14
      "notebook" (sceneWithMaterials ShaderManager.fresh)).2.m_textureIDs 3 =
      { ID := 14, tag := "notebook" } ∧
    registryEntries (CreateGLTexture (registryWoodKeyboardMug : SceneManager ℚ)
      (some ⟨64, 64, 4⟩) 14 "notebook" (sceneWithMaterials ShaderManager.fresh)).2 =
      [{ ID := 11, tag := "wood" }, { ID := 12, tag := "keyboard" },
        { ID := 13, tag := "mug" }, { ID := 14, tag := "notebook" }] :=
  have h := CreateGLTexture_success (registryWoodKeyboardMug : SceneManager ℚ) ⟨64, 64, 4⟩ 14
    "notebook" (sceneWithMaterials ShaderManager.fresh) (by decide) (by decide)
  ⟨by decide, by decide, h.1, h.2.1, h.2.2.1, h.2.2.2.2.2.2.2.1⟩

/-- Claim C4. A call of `CreateGLTexture` on a file that cannot be read, or on an image
whose channel count is neither 3 nor 4, returns `false` and leaves the state as it was:
the count, every array element (handle and tag), the materials and the shader pointer. -/
theorem CreateGLTexture_failure (s : SceneManager α) (image : Option Image)
    (textureID : Nat) (tag : String) (clobbered : SceneManager α)
    (h : image = none ∨
      ∃ img, image = some img ∧ img.colorChannels ≠ 3 ∧ img.colorChannels ≠ 4) :
    CreateGLTexture s image textureID tag clobbered = (false, s) := by
  rcases h with h | ⟨img, h1, h2, h3⟩
  · subst h
    rfl
  · subst h1
    simp [CreateGLTexture, h2, h3]

/-- Claim C4 at concrete calls: an unreadable file and a 1-channel image, on the registry
holding "wood", "keyboard", "mug". -/
theorem CreateGLTexture_failure_witness :
    CreateGLTexture (registryWoodKeyboardMug : SceneManager ℚ) none 0 "missing"
        (sceneWithMaterials ShaderManager.fresh) =
      (false, registryWoodKeyboardMug) ∧
    CreateGLTexture (registryWoodKeyboardMug : SceneManager ℚ) (some ⟨64, 64, 1⟩) 14 "grey"
        (sceneWithMaterials ShaderManager.fresh) =
      (false, registryWoodKeyboardMug) :=
  ⟨CreateGLTexture_failure _ none 0 "missing" _ (Or.inl rfl),
   CreateGLTexture_failure _ (some ⟨64, 64, 1⟩) 14 "grey" _
     (Or.inr ⟨⟨64, 64, 1⟩, rfl, by decide, by decide⟩)⟩

/-- A prefix of a sequence has no more successful calls than the sequence. -/
theorem successfulLoads_take (clobbered : Nat → SceneManager α) (calls : List LoadCall) :
    ∀ (s : SceneManager α) (n : Nat),
      successfulLoads s clobbered (calls.take n) ≤ successfulLoads s clobbered calls := by
  induction calls with
  | nil => intro s n; simp [successfulLoads]
  | cons c cs ih =>
    intro s n
    cases n with
    | zero => simp [successfulLoads]
    | succ k =>
      rw [List.take_succ_cons, successfulLoads, successfulLoads]
      exact Nat.add_le_add_left (ih _ k) _

/-- Every index a sequence writes lies from the initial count up to, and excluding, the
final count. -/
theorem writtenSlots_range (clobbered : Nat → SceneManager α) (calls : List LoadCall) :
    ∀ (s : SceneManager α) (i : Nat), i ∈ writtenSlots s clobbered calls →
      s.m_loadedTextures ≤ i ∧
        i < s.m_loadedTextures + successfulLoads s clobbered calls := by
  induction calls with
  | nil => intro s i hi; simp [writtenSlots] at hi
  | cons c cs ih =>
    intro s i hi
    rw [writtenSlots, List.mem_append] at hi
    rw [successfulLoads]
    have hc := CreateGLTexture_count s c (clobbered s.m_loadedTextures)
    rcases hi with hi | hi
    · by_cases hb : (CreateGLTexture s c.image c.textureID c.tag
          (clobbered s.m_loadedTextures)).1 = true
      · simp [hb] at hi
        subst hi
        simp [hb]
      · simp [hb] at hi
    · have h2 := ih _ i hi
      rw [hc] at h2
      omega

/-- Claim C5, as stated, fails: a call made when the registry holds 16 entries is not
rejected. With a decodable 3-channel image it returns `true`, stores the entry at index
16, one past the last element of the 16-element array, and raises the count to 17. -/
theorem CreateGLTexture_past_capacity :
    (registryFull : SceneManager ℚ).m_loadedTextures = MAX_TEXTURES ∧
    (CreateGLTexture (registryFull : SceneManager ℚ) (some ⟨64, 64, 3⟩) 99 "extra"
      (SceneManager.new none (fun _ => 0))).1 = true ∧
    (CreateGLTexture (registryFull : SceneManager ℚ) (some ⟨64, 64, 3⟩) 99
      "extra" (SceneManager.new none (fun _ => 0))).2.m_loadedTextures = 17 ∧
    (CreateGLTexture (registryFull : SceneManager ℚ) (some ⟨64, 64, 3⟩) 99
      "extra" (SceneManager.new none (fun _ => 0))).2.m_textureIDs 16 =
      { ID := 99, tag := "extra" } ∧
    ¬ ((CreateGLTexture (registryFull : SceneManager ℚ) (some ⟨64, 64, 3⟩) 99
      "extra" (SceneManager.new none (fun _ => 0))).2.m_loadedTextures ≤ MAX_TEXTURES) := by
  refine ⟨by decide, by decide, by decide, by decide, by decide⟩

/-- Claim C5, amended. For every sequence of `CreateGLTexture` calls on a fresh manager
of which at most 16 succeed, the loaded-texture count is at most 16 after every call of
the sequence, it is the number of calls that succeeded, and every array index written
lies in 0..15. -/
theorem loadSequence_within_capacity (sh : Option (ShaderManager α)) (ids : Nat → Nat)
    (clobbered : Nat → SceneManager α) (calls : List LoadCall)
    (h : successfulLoads (SceneManager.new sh ids) clobbered calls ≤ MAX_TEXTURES) :
    (∀ n : Nat,
      (loadSequence (SceneManager.new sh ids) clobbered (calls.take n)).m_loadedTextures ≤
        MAX_TEXTURES) ∧
    (loadSequence (SceneManager.new sh ids) clobbered calls).m_loadedTextures =
      successfulLoads (SceneManager.new sh ids) clobbered calls ∧
    (∀ i, i ∈ writtenSlots (SceneManager.new sh ids) clobbered calls →
      i < MAX_TEXTURES) := by
  have h0 : (SceneManager.new sh ids).m_loadedTextures = 0 := rfl
  refine ⟨?_, ?_, ?_⟩
  · intro n
    rw [loadSequence_count, h0, Nat.zero_add]
    exact le_trans (successfulLoads_take clobbered calls _ n) h
  · rw [loadSequence_count, h0, Nat.zero_add]
  · intro i hi
    have h2 := writtenSlots_range clobbered calls _ i hi
    rw [h0] at h2
    omega

/-- Claim C5, amended, at the four loads of `LoadSceneTextures`. -/
theorem loadSequence_within_capacity_witness :
    successfulLoads (SceneManager.new (none : Option (ShaderManager ℚ)) (fun _ => 0))
      (fun _ => SceneManager.new none (fun _ => 0)) sceneTextureCalls ≤ MAX_TEXTURES ∧
    (loadSequence (SceneManager.new (none : Option (ShaderManager ℚ)) (fun _ => 0))
      (fun _ => SceneManager.new none (fun _ => 0)) sceneTextureCalls).m_loadedTextures =
      4 ∧
    (∀ i, i ∈ writtenSlots (SceneManager.new (none : Option (ShaderManager ℚ)) (fun _ => 0))
      (fun _ => SceneManager.new none (fun _ => 0)) sceneTextureCalls →
      i < MAX_TEXTURES) :=
  have h := loadSequence_within_capacity (none : Option (ShaderManager ℚ)) (fun _ => 0)
    (fun _ => SceneManager.new none (fun _ => 0)) sceneTextureCalls (by decide)
  ⟨by decide, h.2.1, h.2.2⟩

/-! ## Transform composer -/

section Transform

variable [Field α]

/-- Operator `*` on `mat4` is `mat4.mul`. -/
theorem mat4.mul_def (a b : mat4 α) : a * b = mat4.mul a b := rfl

/-- The matrix of `glm::scale` is the scale matrix. -/
theorem glm_scale_eq (k : vec3 α) : glm_scale k = scaleMatrix k := by
  simp [glm_scale, scaleMatrix, mat4.identity, vec4.smul]

/-- The matrix of `glm::translate` is the translation matrix. -/
theorem glm_translate_eq (t : vec3 α) : glm_translate t = translationMatrix t := by
  simp [glm_translate, translationMatrix, mat4.identity, vec4.smul, vec4.add]

/-- The matrix of `glm::rotate` about the unit X axis is the rotation matrix about X. -/
theorem glm_rotate_x (ml : MathLib α) (hk : ml.inversesqrt 1 = 1) (a : α) :
    glm_rotate ml a ⟨1, 0, 0⟩ = rotationXMatrix (ml.cos a) (ml.sin a) := by
  simp [glm_rotate, glm_normalize, rotationXMatrix, mat4.identity, vec4.smul, vec4.add, hk]

/-- The matrix of `glm::rotate` about the unit Y axis is the rotation matrix about Y. -/
theorem glm_rotate_y (ml : MathLib α) (hk : ml.inversesqrt 1 = 1) (a : α) :
    glm_rotate ml a ⟨0, 1, 0⟩ = rotationYMatrix (ml.cos a) (ml.sin a) := by
  simp [glm_rotate, glm_normalize, rotationYMatrix, mat4.identity, vec4.smul, vec4.add, hk]

/-- The matrix of `glm::rotate` about the unit Z axis is the rotation matrix about Z. -/
theorem glm_rotate_z (ml : MathLib α) (hk : ml.inversesqrt 1 = 1) (a : α) :
    glm_rotate ml a ⟨0, 0, 1⟩ = rotationZMatrix (ml.cos a) (ml.sin a) := by
  simp [glm_rotate, glm_normalize, rotationZMatrix, mat4.identity, vec4.smul, vec4.add, hk]

/-- Zero degrees are zero radians. -/
theorem glm_radians_zero : glm_radians (0 : α) = 0 := by
  simp [glm_radians]

/-- The matrix that `SetTransformations` computes, with a NULL or an attached shader
manager: the state only changes in the uniform "model". -/
theorem SetTransformations_uniform (ml : MathLib α) (s : SceneManager α)
    (sh : ShaderManager α) (scaleXYZ : vec3 α) (X Y Z : α) (positionXYZ : vec3 α) :
    SetTransformations ml { s with m_pShaderManager := some sh } scaleXYZ X Y Z positionXYZ =
      { s with
        m_pShaderManager := some (sh.setMat4Value g_ModelName
          (glm_translate positionXYZ * glm_rotate ml (glm_radians Z) ⟨0, 0, 1⟩ *
            glm_rotate ml (glm_radians Y) ⟨0, 1, 0⟩ *
            glm_rotate ml (glm_radians X) ⟨1, 0, 0⟩ * glm_scale scaleXYZ)) } := by
  rfl

end Transform

/-- With unit scale and zero angles the product of the five matrices is the translation
matrix. -/
theorem translation_product [Field α] (t : vec3 α) :
    translationMatrix t * rotationZMatrix 1 0 * rotationYMatrix 1 0 * rotationXMatrix 1 0 *
      scaleMatrix ⟨1, 1, 1⟩ = translationMatrix t := by
  simp [mat4.mul_def, mat4.mul, mat4.mulVec, vec4.smul, vec4.add, translationMatrix,
    rotationZMatrix, rotationYMatrix, rotationXMatrix, scaleMatrix]

/-- Claim C7. With scale (1,1,1) and rotations (0,0,0), and a shader manager attached,
`SetTransformations` writes to "model" the pure translation matrix by `t`: the identity
matrix for `t = (0,0,0)`, and for `t = (2,3,4)` the matrix whose last column is
(2,3,4,1). -/
theorem SetTransformations_pure_translation [Field α] (ml : MathLib α)
    (hcos : ml.cos 0 = 1) (hsin : ml.sin 0 = 0) (hk : ml.inversesqrt 1 = 1)
    (s : SceneManager α) (sh : ShaderManager α) (t : vec3 α) :
    uniformOf (SetTransformations ml { s with m_pShaderManager := some sh } ⟨1, 1, 1⟩ 0 0 0 t)
      g_ModelName =
      some (.mat4 ⟨⟨1, 0, 0, 0⟩, ⟨0, 1, 0, 0⟩, ⟨0, 0, 1, 0⟩, ⟨t.x, t.y, t.z, 1⟩⟩) ∧
    uniformOf (SetTransformations ml { s with m_pShaderManager := some sh } ⟨1, 1, 1⟩ 0 0 0
      ⟨0, 0, 0⟩) g_ModelName = some (.mat4 mat4.identity) ∧
    uniformOf (SetTransformations ml { s with m_pShaderManager := some sh } ⟨1, 1, 1⟩ 0 0 0
      ⟨2, 3, 4⟩) g_ModelName =
      some (.mat4 ⟨⟨1, 0, 0, 0⟩, ⟨0, 1, 0, 0⟩, ⟨0, 0, 1, 0⟩, ⟨2, 3, 4, 1⟩⟩) := by
  have key : ∀ p : vec3 α,
      uniformOf (SetTransformations ml { s with m_pShaderManager := some sh } ⟨1, 1, 1⟩ 0 0 0 p)
        g_ModelName = some (.mat4 (translationMatrix p)) := by
    intro p
    rw [SetTransformations_uniform, glm_translate_eq, glm_rotate_x ml hk, glm_rotate_y ml hk,
      glm_rotate_z ml hk, glm_scale_eq, glm_radians_zero, hcos, hsin, translation_product]
    simp [uniformOf, ShaderManager.setMat4Value, ShaderManager.setValue]
  exact ⟨key t, key ⟨0, 0, 0⟩, key ⟨2, 3, 4⟩⟩

/-- Claim C7 at a concrete call: the sample math library, translation (2, 3, 4). -/
theorem SetTransformations_pure_translation_witness :
    MathLib.sample.cos 0 = 1 ∧ MathLib.sample.sin 0 = 0 ∧ MathLib.sample.inversesqrt 1 = 1 ∧
    uniformOf (SetTransformations MathLib.sample
      { (registryWoodKeyboardMug : SceneManager ℚ) with
        m_pShaderManager := some ShaderManager.fresh }
      ⟨1, 1, 1⟩ 0 0 0 ⟨2, 3, 4⟩) g_ModelName =
      some (.mat4 ⟨⟨1, 0, 0, 0⟩, ⟨0, 1, 0, 0⟩, ⟨0, 0, 1, 0⟩, ⟨2, 3, 4, 1⟩⟩) :=
  ⟨by norm_num [MathLib.sample], by norm_num [MathLib.sample], by norm_num [MathLib.sample],
   (SetTransformations_pure_translation MathLib.sample (by norm_num [MathLib.sample])
     (by norm_num [MathLib.sample]) (by norm_num [MathLib.sample])
     (registryWoodKeyboardMug : SceneManager ℚ) ShaderManager.fresh ⟨2, 3, 4⟩).1⟩

/-! ## Shader state setters -/

/-- The scan of `FindTextureSlot` reads the count and the array only. -/
theorem FindTextureSlot_loop_congr (s1 s2 : SceneManager α) (tag : String)
    (hc : s1.m_loadedTextures = s2.m_loadedTextures)
    (ha : s1.m_textureIDs = s2.m_textureIDs) :
    ∀ (fuel : Nat) (textureSlot : Int) (index : Nat) (bFound : Bool),
      FindTextureSlot_loop s1 tag fuel textureSlot index bFound =
        FindTextureSlot_loop s2 tag fuel textureSlot index bFound := by
  intro fuel
  induction fuel with
  | zero => intro textureSlot index bFound; simp [FindTextureSlot_loop]
  | succ n ih =>
    intro textureSlot index bFound
    simp [FindTextureSlot_loop, hc, ha, ih]

/-- Claim C8. With a shader manager attached, `SetShaderTexture(tag)` followed by
`SetShaderColor(r,g,b,a)` leaves "bUseTexture" at 0 (false) and "objectColor" at
(r,g,b,a); in the opposite order "bUseTexture" is left at 1 (true), "objectColor" still
holds (r,g,b,a) and "objectTexture" holds the slot of the tag. -/
theorem SetShaderColor_after_SetShaderTexture (s : SceneManager α) (sh : ShaderManager α)
    (tag : String) (r g b a : α) :
    uniformOf (SetShaderColor (SetShaderTexture { s with m_pShaderManager := some sh } tag)
      r g b a) g_UseTextureName = some (.int 0) ∧
    uniformOf (SetShaderColor (SetShaderTexture { s with m_pShaderManager := some sh } tag)
      r g b a) g_ColorValueName = some (.vec4 ⟨r, g, b, a⟩) ∧
    uniformOf (SetShaderTexture (SetShaderColor { s with m_pShaderManager := some sh }
      r g b a) tag) g_UseTextureName = some (.int 1) ∧
    uniformOf (SetShaderTexture (SetShaderColor { s with m_pShaderManager := some sh }
      r g b a) tag) g_ColorValueName = some (.vec4 ⟨r, g, b, a⟩) ∧
    uniformOf (SetShaderTexture (SetShaderColor { s with m_pShaderManager := some sh }
      r g b a) tag) g_TextureValueName = some (.int (FindTextureSlot s tag)) := by
  have h1 : g_ColorValueName ≠ g_UseTextureName := by decide
  have h2 : g_TextureValueName ≠ g_UseTextureName := by decide
  have h3 : g_ColorValueName ≠ g_TextureValueName := by decide
  refine ⟨?_, ?_, ?_, ?_, ?_⟩
  · simp [uniformOf, SetShaderColor, SetShaderTexture, ShaderManager.setIntValue,
      ShaderManager.setVec4Value, ShaderManager.setSampler2DValue, ShaderManager.setValue,
      bool_to_int, h1.symm]
  · simp [uniformOf, SetShaderColor, SetShaderTexture, ShaderManager.setIntValue,
      ShaderManager.setVec4Value, ShaderManager.setSampler2DValue, ShaderManager.setValue,
      bool_to_int]
  · simp [uniformOf, SetShaderColor, SetShaderTexture, ShaderManager.setIntValue,
      ShaderManager.setVec4Value, ShaderManager.setSampler2DValue, ShaderManager.setValue,
      bool_to_int, h2.symm]
  · simp [uniformOf, SetShaderColor, SetShaderTexture, ShaderManager.setIntValue,
      ShaderManager.setVec4Value, ShaderManager.setSampler2DValue, ShaderManager.setValue,
      bool_to_int, h3, h1]
  · have hslot : FindTextureSlot (SetShaderColor { s with m_pShaderManager := some sh }
        r g b a) tag = FindTextureSlot s tag := by
      unfold FindTextureSlot
      exact FindTextureSlot_loop_congr
        (SetShaderColor { s with m_pShaderManager := some sh } r g b a) s tag rfl rfl
        (s.m_loadedTextures + 1) (-1) 0 false
    simp [uniformOf, SetShaderTexture, SetShaderColor, ShaderManager.setIntValue,
      ShaderManager.setVec4Value, ShaderManager.setSampler2DValue, ShaderManager.setValue,
      bool_to_int]
    exact hslot

/-! ## Materials -/

/-- The loop of `FindMaterial` never assigns `ambientColor`, `ambientStrength` or `tag`
of the reference parameter. -/
theorem FindMaterial_loop_ambient (s : SceneManager α) (tag : String) :
    ∀ (fuel index : Nat) (bFound : Bool) (material : OBJECT_MATERIAL α),
      (FindMaterial_loop s tag fuel index bFound material).ambientColor =
          material.ambientColor ∧
        (FindMaterial_loop s tag fuel index bFound material).ambientStrength =
          material.ambientStrength ∧
        (FindMaterial_loop s tag fuel index bFound material).tag = material.tag := by
  intro fuel
  induction fuel with
  | zero => intro index bFound material; simp [FindMaterial_loop]
  | succ n ih =>
    intro index bFound material
    rw [FindMaterial_loop]
    split
    · split
      · rw [(ih _ _ _).1, (ih _ _ _).2.1, (ih _ _ _).2.2]
        exact ⟨rfl, rfl, rfl⟩
      · exact ih _ _ _
    · exact ⟨rfl, rfl, rfl⟩

/-- Claim C9 on the code: after `DefineObjectMaterials`, `SetShaderMaterial("glass")`
writes the first matching entry's diffuse colour, specular colour and shininess, but
"material.ambientColor" and "material.ambientStrength" receive the members of the
uninitialised local `material`, which `FindMaterial` assigns for no table and no tag:
with a local whose members are zero they are (0,0,0) and 0, not (0.60,0.60,0.60) and
40. -/
theorem SetShaderMaterial_glass_ambient (sh : ShaderManager ℚ) (u : OBJECT_MATERIAL ℚ)
    (s : SceneManager ℚ) (tag : String) :
    ((FindMaterial s tag u).2.ambientColor = u.ambientColor ∧
      (FindMaterial s tag u).2.ambientStrength = u.ambientStrength) ∧
    FindMaterial (sceneWithMaterials sh) "glass" { u with tag := "" } =
      (true,
        { u with
          tag := ""
          diffuseColor := ⟨0.10, 0.10, 0.10⟩
          specularColor := ⟨0.90, 0.90, 0.90⟩
          shininess := 128.0 }) ∧
    (∃ s1, SetShaderMaterial (sceneWithMaterials sh) "glass" u = some s1 ∧
      uniformOf s1 "material.diffuseColor" = some (.vec3 ⟨0.10, 0.10, 0.10⟩) ∧
      uniformOf s1 "material.specularColor" = some (.vec3 ⟨0.90, 0.90, 0.90⟩) ∧
      uniformOf s1 "material.shininess" = some (.float 128.0) ∧
      uniformOf s1 "material.ambientColor" = some (.vec3 u.ambientColor) ∧
      uniformOf s1 "material.ambientStrength" = some (.float u.ambientStrength)) ∧
    (∃ s1, SetShaderMaterial (sceneWithMaterials sh) "glass" zeroMaterial = some s1 ∧
      uniformOf s1 "material.ambientColor" = some (.vec3 ⟨0, 0, 0⟩) ∧
      uniformOf s1 "material.ambientColor" ≠ some (.vec3 ⟨0.60, 0.60, 0.60⟩) ∧
      uniformOf s1 "material.ambientStrength" = some (.float 0) ∧
      uniformOf s1 "material.ambientStrength" ≠ some (.float 40.0)) := by
  refine ⟨?_, rfl, ⟨_, rfl, rfl, rfl, rfl, rfl, rfl⟩, ⟨_, rfl, rfl, ?_, rfl, ?_⟩⟩
  · unfold FindMaterial
    split
    · exact ⟨rfl, rfl⟩
    · exact ⟨(FindMaterial_loop_ambient s tag _ _ _ _).1,
        (FindMaterial_loop_ambient s tag _ _ _ _).2.1⟩
  · have h : uniformOf ((SetShaderMaterial (sceneWithMaterials sh) "glass" zeroMaterial).getD
        (sceneWithMaterials sh)) "material.ambientColor" = some (.vec3 ⟨0, 0, 0⟩) := rfl
    intro hc
    have h2 := h.symm.trans hc
    simp only [Option.some.injEq, UniformValue.vec3.injEq, vec3.mk.injEq] at h2
    norm_num at h2
  · have h : uniformOf ((SetShaderMaterial (sceneWithMaterials sh) "glass" zeroMaterial).getD
        (sceneWithMaterials sh)) "material.ambientStrength" = some (.float 0) := rfl
    intro hc
    have h2 := h.symm.trans hc
    simp only [Option.some.injEq, UniformValue.float.injEq] at h2
    norm_num at h2

/-- Claim C10 on the code: `FindMaterial` returns `true` for every tag whenever the table
is not empty. Against the table {"glass", "plastic"} of `DefineObjectMaterials`,
`FindMaterial("metal")` returns `true` with `material` untouched,
and `SetShaderMaterial("metal")` writes the five material uniforms from the uninitialised
local: on a fresh shader program, where "material.shininess" was never written, it holds
0 afterwards for a local whose members are zero. On the empty table `FindMaterial`
returns `false` and `SetShaderMaterial` changes nothing. -/
theorem SetShaderMaterial_unmatched_tag (sh : ShaderManager ℚ) (u : OBJECT_MATERIAL ℚ)
    (ids : Nat → Nat) (s : SceneManager ℚ) (tag : String) :
    (FindMaterial s tag u).1 = !s.m_objectMaterials.isEmpty ∧
    (∀ m ∈ (sceneWithMaterials sh).m_objectMaterials, m.tag ≠ "metal") ∧
    FindMaterial (sceneWithMaterials sh) "metal" u = (true, u) ∧
    (∃ s1, SetShaderMaterial (sceneWithMaterials sh) "metal" u = some s1 ∧
      uniformOf s1 "material.diffuseColor" = some (.vec3 u.diffuseColor) ∧
      uniformOf s1 "material.specularColor" = some (.vec3 u.specularColor) ∧
      uniformOf s1 "material.shininess" = some (.float u.shininess) ∧
      uniformOf s1 "material.ambientColor" = some (.vec3 u.ambientColor) ∧
      uniformOf s1 "material.ambientStrength" = some (.float u.ambientStrength)) ∧
    (uniformOf (sceneWithMaterials ShaderManager.fresh) "material.shininess" = none ∧
      ∃ s1, SetShaderMaterial (sceneWithMaterials ShaderManager.fresh) "metal" zeroMaterial =
          some s1 ∧
        uniformOf s1 "material.shininess" = some (.float 0) ∧
        s1 ≠ sceneWithMaterials ShaderManager.fresh) ∧
    (FindMaterial (SceneManager.new (some sh) ids) "metal" u = (false, u) ∧
      SetShaderMaterial (SceneManager.new (some sh) ids) "metal" u =
        some (SceneManager.new (some sh) ids)) := by
  refine ⟨?_, ?_, rfl, ⟨_, rfl, rfl, rfl, rfl, rfl, rfl⟩, ⟨rfl, _, rfl, rfl, ?_⟩, rfl, rfl⟩
  · unfold FindMaterial
    cases hm : s.m_objectMaterials with
    | nil => simp
    | cons a l => simp
  · intro m hm
    simp [sceneWithMaterials, DefineObjectMaterials, SceneManager.new] at hm
    rcases hm with h | h <;> subst h <;> decide
  · intro hc
    have h1 : uniformOf ((SetShaderMaterial (sceneWithMaterials ShaderManager.fresh) "metal"
        zeroMaterial).getD (sceneWithMaterials ShaderManager.fresh)) "material.shininess" =
        some (.float 0) := rfl
    have h2 : uniformOf (sceneWithMaterials ShaderManager.fresh) "material.shininess" =
        (none : Option (UniformValue ℚ)) := rfl
    have h3 : (SetShaderMaterial (sceneWithMaterials ShaderManager.fresh) "metal"
        zeroMaterial).getD (sceneWithMaterials ShaderManager.fresh) =
        sceneWithMaterials ShaderManager.fresh := hc
    rw [h3, h2] at h1
    exact Option.noConfusion h1

/-! ## Scene script: draw calls -/

section SceneScript

/-- With a shader manager attached `SetShaderMaterial` returns, and it leaves the meshes
alone and the shader manager attached. -/
theorem SetShaderMaterial_runs (s : SceneManager α) (tag : String) (u : OBJECT_MATERIAL α)
    (h : s.m_pShaderManager.isSome = true) :
    ∃ s1, SetShaderMaterial s tag u = some s1 ∧ s1.m_basicMeshes = s.m_basicMeshes ∧
      s1.m_pShaderManager.isSome = true := by
  cases hsh : s.m_pShaderManager with
  | none => rw [hsh] at h; simp at h
  | some sh =>
    unfold SetShaderMaterial
    simp only [hsh]
    split
    · split
      · exact ⟨_, rfl, rfl, rfl⟩
      · exact ⟨_, rfl, rfl, h⟩
    · exact ⟨_, rfl, rfl, h⟩

/-- With a shader manager attached `SetupSceneLights` returns, and it leaves the meshes
alone and the shader manager attached. -/
theorem SetupSceneLights_runs [Field α] (s : SceneManager α) (h : s.m_pShaderManager.isSome = true) :
    ∃ s1, SetupSceneLights s = some s1 ∧ s1.m_basicMeshes = s.m_basicMeshes ∧
      s1.m_pShaderManager.isSome = true := by
  cases hsh : s.m_pShaderManager with
  | none => rw [hsh] at h; simp at h
  | some sh =>
    unfold SetupSceneLights
    simp only [hsh]
    exact ⟨_, rfl, rfl, rfl⟩

/-- The setter `SetTransformations` leaves the meshes alone. -/
theorem SetTransformations_meshes [Field α] (ml : MathLib α) (s : SceneManager α)
    (k : vec3 α) (x y z : α) (t : vec3 α) :
    (SetTransformations ml s k x y z t).m_basicMeshes = s.m_basicMeshes := by
  unfold SetTransformations
  cases hsh : s.m_pShaderManager <;> simp [hsh]

/-- The setter `SetTransformations` leaves a shader manager attached. -/
theorem SetTransformations_attached [Field α] (ml : MathLib α) (s : SceneManager α)
    (k : vec3 α) (x y z : α) (t : vec3 α) :
    (SetTransformations ml s k x y z t).m_pShaderManager.isSome =
      s.m_pShaderManager.isSome := by
  unfold SetTransformations
  cases hsh : s.m_pShaderManager <;> simp [hsh]

/-- The setter `SetShaderColor` leaves the meshes alone. -/
theorem SetShaderColor_meshes (s : SceneManager α) (r g b a : α) :
    (SetShaderColor s r g b a).m_basicMeshes = s.m_basicMeshes := by
  unfold SetShaderColor
  cases hsh : s.m_pShaderManager <;> simp [hsh]

/-- The setter `SetShaderColor` leaves a shader manager attached. -/
theorem SetShaderColor_attached (s : SceneManager α) (r g b a : α) :
    (SetShaderColor s r g b a).m_pShaderManager.isSome = s.m_pShaderManager.isSome := by
  unfold SetShaderColor
  cases hsh : s.m_pShaderManager <;> simp [hsh]

/-- The setter `SetShaderTexture` leaves the meshes alone. -/
theorem SetShaderTexture_meshes (s : SceneManager α) (tag : String) :
    (SetShaderTexture s tag).m_basicMeshes = s.m_basicMeshes := by
  unfold SetShaderTexture
  cases hsh : s.m_pShaderManager <;> simp [hsh]

/-- The setter `SetShaderTexture` leaves a shader manager attached. -/
theorem SetShaderTexture_attached (s : SceneManager α) (tag : String) :
    (SetShaderTexture s tag).m_pShaderManager.isSome = s.m_pShaderManager.isSome := by
  unfold SetShaderTexture
  cases hsh : s.m_pShaderManager <;> simp [hsh]

/-- Sequencing: a step that returns with known meshes and an attached shader manager,
followed by a continuation that returns from every such state. -/
theorem bind_runs {Q : SceneManager α → Prop} (o : Option (SceneManager α))
    (m : ShapeMeshes) (k : SceneManager α → Option (SceneManager α))
    (ho : ∃ s1, o = some s1 ∧ s1.m_basicMeshes = m ∧ s1.m_pShaderManager.isSome = true)
    (hk : ∀ s1, s1.m_basicMeshes = m → s1.m_pShaderManager.isSome = true →
      ∃ s2, k s1 = some s2 ∧ Q s2) :
    ∃ s2, o.bind k = some s2 ∧ Q s2 := by
  obtain ⟨s1, h1, h2, h3⟩ := ho
  subst h1
  exact hk s1 h2 h3

/-- From every state with a shader manager attached `RenderScene` returns, having
appended the twenty draw calls and loaded nothing. -/
theorem RenderScene_appends [Field α] (ml : MathLib α) (s : SceneManager α)
    (uninit : Nat → OBJECT_MATERIAL α) (h : s.m_pShaderManager.isSome = true) :
    ∃ s2, RenderScene ml s uninit = some s2 ∧
      s2.m_basicMeshes = { s.m_basicMeshes with drawn := s.m_basicMeshes.drawn ++ sceneDraws } := by
  unfold RenderScene
  simp only [Option.bind_eq_bind, Option.pure_def]
  refine bind_runs _ _ _ (SetupSceneLights_runs s h) ?_
  intro s1 hm1 hs1
  refine bind_runs _ _ _ (SetShaderMaterial_runs _ _ _ ?_) ?_
  · simp only [SetTransformations_attached, SetShaderColor_attached,
      SetShaderTexture_attached, drawPlane, drawCylinder, drawBox, drawCone, drawTorus, hs1]
  intro s2 hm2 hs2
  refine bind_runs _ _ _ (SetShaderMaterial_runs _ _ _ ?_) ?_
  · simp only [SetTransformations_attached, SetShaderColor_attached,
      SetShaderTexture_attached, drawPlane, drawCylinder, drawBox, drawCone, drawTorus, hs2]
  intro s3 hm3 hs3
  refine bind_runs _ _ _ (SetShaderMaterial_runs _ _ _ ?_) ?_
  · simp only [SetTransformations_attached, SetShaderColor_attached,
      SetShaderTexture_attached, drawPlane, drawCylinder, drawBox, drawCone, drawTorus, hs3]
  intro s4 hm4 hs4
  refine bind_runs _ _ _ (SetShaderMaterial_runs _ _ _ ?_) ?_
  · simp only [SetTransformations_attached, SetShaderColor_attached,
      SetShaderTexture_attached, drawPlane, drawCylinder, drawBox, drawCone, drawTorus, hs4]
  intro s5 hm5 hs5
  refine ⟨_, rfl, ?_⟩
  simp only [SetTransformations_meshes, SetShaderColor_meshes, SetShaderTexture_meshes,
    drawPlane, drawCylinder, drawBox, drawCone, drawTorus] at hm2 hm3 hm4 hm5 ⊢
  rw [hm5, hm4, hm3, hm2, hm1]
  simp [ShapeMeshes.DrawPlaneMesh, ShapeMeshes.DrawCylinderMesh, ShapeMeshes.DrawBoxMesh,
    ShapeMeshes.DrawConeMesh, ShapeMeshes.DrawTorusMesh, ShapeMeshes.draw, sceneDraws]

/-- A call of `CreateGLTexture` made below the capacity leaves the shader pointer, the
meshes and the materials alone, whatever the image, and adds at most one to the count. -/
theorem CreateGLTexture_frame (s : SceneManager α) (image : Option Image) (textureID : Nat)
    (tag : String) (clobbered : SceneManager α) (hb : s.m_loadedTextures < MAX_TEXTURES) :
    (CreateGLTexture s image textureID tag clobbered).2.m_pShaderManager =
      s.m_pShaderManager ∧
    (CreateGLTexture s image textureID tag clobbered).2.m_basicMeshes = s.m_basicMeshes ∧
    (CreateGLTexture s image textureID tag clobbered).2.m_objectMaterials =
      s.m_objectMaterials ∧
    (CreateGLTexture s image textureID tag clobbered).2.m_loadedTextures ≤
      s.m_loadedTextures + 1 := by
  cases image with
  | none => exact ⟨rfl, rfl, rfl, Nat.le_succ _⟩
  | some img =>
    by_cases h : img.colorChannels = 3 ∨ img.colorChannels = 4
    · simp [CreateGLTexture, h, hb]
    · simp [CreateGLTexture, h]

/-- With room for four more textures `LoadSceneTextures` leaves the shader pointer, the
meshes and the materials alone. -/
theorem LoadSceneTextures_frame (s : SceneManager α) (files : String → Option Image)
    (names : String → Nat) (clobbered : Nat → SceneManager α)
    (hb : s.m_loadedTextures + 4 ≤ MAX_TEXTURES) :
    (LoadSceneTextures s files names clobbered).m_pShaderManager = s.m_pShaderManager ∧
    (LoadSceneTextures s files names clobbered).m_basicMeshes = s.m_basicMeshes ∧
    (LoadSceneTextures s files names clobbered).m_objectMaterials =
      s.m_objectMaterials := by
  unfold LoadSceneTextures
  obtain ⟨a1, b1, c1, d1⟩ := CreateGLTexture_frame s (files "Textures/wood.jpg")
    (names "Textures/wood.jpg") "wood" (clobbered 0) (by omega)
  obtain ⟨a2, b2, c2, d2⟩ := CreateGLTexture_frame
    (CreateGLTexture s (files "Textures/wood.jpg") (names "Textures/wood.jpg") "wood"
      (clobbered 0)).2
    (files "Textures/keyboard.jpg") (names "Textures/keyboard.jpg") "keyboard"
    (clobbered 1) (by omega)
  obtain ⟨a3, b3, c3, d3⟩ := CreateGLTexture_frame
    (CreateGLTexture
      (CreateGLTexture s (files "Textures/wood.jpg") (names "Textures/wood.jpg") "wood"
        (clobbered 0)).2
      (files "Textures/keyboard.jpg") (names "Textures/keyboard.jpg") "keyboard"
      (clobbered 1)).2
    (files "Textures/notebook.jpg") (names "Textures/notebook.jpg") "notebook"
    (clobbered 2) (by omega)
  obtain ⟨a4, b4, c4, _⟩ := CreateGLTexture_frame
    (CreateGLTexture
      (CreateGLTexture
        (CreateGLTexture s (files "Textures/wood.jpg") (names "Textures/wood.jpg") "wood"
          (clobbered 0)).2
        (files "Textures/keyboard.jpg") (names "Textures/keyboard.jpg") "keyboard"
        (clobbered 1)).2
      (files "Textures/notebook.jpg") (names "Textures/notebook.jpg") "notebook"
      (clobbered 2)).2
    (files "Textures/mug.jpg") (names "Textures/mug.jpg") "mug" (clobbered 3) (by omega)
  exact ⟨a4.trans (a3.trans (a2.trans a1)), b4.trans (b3.trans (b2.trans b1)),
    c4.trans (c3.trans (c2.trans c1))⟩

/-- With room for four more textures `PrepareScene` keeps the shader pointer, issues the
six load calls and no draw call. -/
theorem PrepareScene_frame [Field α] (s : SceneManager α) (files : String → Option Image)
    (names : String → Nat) (clobbered : Nat → SceneManager α)
    (hb : s.m_loadedTextures + 4 ≤ MAX_TEXTURES) :
    (PrepareScene s files names clobbered).m_pShaderManager = s.m_pShaderManager ∧
    (PrepareScene s files names clobbered).m_basicMeshes =
      { loaded := s.m_basicMeshes.loaded ++
          [.plane, .cylinder, .box, .cone, .sphere, .torus]
        drawn := s.m_basicMeshes.drawn } := by
  have hf := LoadSceneTextures_frame (DefineObjectMaterials s) files names clobbered hb
  have h1 : (DefineObjectMaterials s).m_pShaderManager = s.m_pShaderManager := rfl
  have h2 : (DefineObjectMaterials s).m_basicMeshes = s.m_basicMeshes := rfl
  simp [PrepareScene, hf.1, hf.2.1, h1, h2,
    ShapeMeshes.LoadPlaneMesh, ShapeMeshes.LoadCylinderMesh, ShapeMeshes.LoadBoxMesh,
    ShapeMeshes.LoadConeMesh, ShapeMeshes.LoadSphereMesh, ShapeMeshes.LoadTorusMesh,
    ShapeMeshes.load]

end SceneScript

/-- Claim C11, as stated, fails: on a fresh manager with a shader program attached and
four readable textures, `PrepareScene` then `RenderScene` draw 7 cylinders, 7 boxes and 4
cones, not 9, 5 and 5. -/
theorem RenderScene_totals_differ :
    ∃ s2, RenderScene MathLib.sample
        (PrepareScene (SceneManager.new (some ShaderManager.fresh) (fun _ => 0))
          (fun _ => some ⟨512, 512, 3⟩) (fun _ => 1)
          (fun _ => SceneManager.new none (fun _ => 0)))
        (fun _ => zeroMaterial) = some s2 ∧
      s2.m_basicMeshes.drawn.count .cylinder = 7 ∧
      s2.m_basicMeshes.drawn.count .box = 7 ∧
      s2.m_basicMeshes.drawn.count .cone = 4 ∧
      ¬ (s2.m_basicMeshes.drawn.count .cylinder = 9 ∧
        s2.m_basicMeshes.drawn.count .box = 5 ∧
        s2.m_basicMeshes.drawn.count .cone = 5) := by
  have hb : (SceneManager.new (some (ShaderManager.fresh : ShaderManager ℚ))
      (fun _ => 0)).m_loadedTextures + 4 ≤ MAX_TEXTURES := by decide
  obtain ⟨s2, h1, h2⟩ := RenderScene_appends MathLib.sample
    (PrepareScene (SceneManager.new (some ShaderManager.fresh) (fun _ => 0))
      (fun _ => some ⟨512, 512, 3⟩) (fun _ => 1)
      (fun _ => SceneManager.new none (fun _ => 0)))
    (fun _ => zeroMaterial) (by rw [(PrepareScene_frame _ _ _ _ hb).1]; rfl)
  refine ⟨s2, h1, ?_⟩
  rw [h2, (PrepareScene_frame _ _ _ _ hb).2]
  decide

/-- Claim C11, amended. On a fresh manager with a shader program attached, `PrepareScene`
then `RenderScene` once issue twenty draw calls in the fixed order of the source: first
the one plane draw, then cylinder, box, cone and torus draws; the totals are plane 1,
cylinder 7, box 7, cone 4, torus 1 and sphere 0. The sphere mesh is among the six meshes
`PrepareScene` loads and is never drawn. -/
theorem RenderScene_draw_order [Field α] (ml : MathLib α) (sh : ShaderManager α)
    (ids : Nat → Nat) (files : String → Option Image) (names : String → Nat)
    (clobbered : Nat → SceneManager α) (uninit : Nat → OBJECT_MATERIAL α) :
    ∃ s2, RenderScene ml
        (PrepareScene (SceneManager.new (some sh) ids) files names clobbered) uninit =
        some s2 ∧
      s2.m_basicMeshes.drawn =
        [.plane, .cylinder, .cylinder, .box, .box, .box, .box, .cone, .cylinder, .cylinder,
          .torus, .cylinder, .cone, .cylinder, .cone, .cylinder, .cone, .box, .box, .box] ∧
      s2.m_basicMeshes.loaded = [.plane, .cylinder, .box, .cone, .sphere, .torus] ∧
      s2.m_basicMeshes.drawn.length = 20 ∧
      s2.m_basicMeshes.drawn.head? = some .plane ∧
      s2.m_basicMeshes.drawn.count .plane = 1 ∧
      s2.m_basicMeshes.drawn.count .cylinder = 7 ∧
      s2.m_basicMeshes.drawn.count .box = 7 ∧
      s2.m_basicMeshes.drawn.count .cone = 4 ∧
      s2.m_basicMeshes.drawn.count .torus = 1 ∧
      s2.m_basicMeshes.drawn.count .sphere = 0 := by
  have hb : (SceneManager.new (some sh) ids).m_loadedTextures + 4 ≤ MAX_TEXTURES := by
    show 0 + 4 ≤ 16
    omega
  obtain ⟨s2, h1, h2⟩ := RenderScene_appends ml
    (PrepareScene (SceneManager.new (some sh) ids) files names clobbered) uninit
    (by rw [(PrepareScene_frame _ _ _ _ hb).1]; rfl)
  have hd : s2.m_basicMeshes.drawn =
      [.plane, .cylinder, .cylinder, .box, .box, .box, .box, .cone, .cylinder, .cylinder,
        .torus, .cylinder, .cone, .cylinder, .cone, .cylinder, .cone, .box, .box, .box] := by
    rw [h2, (PrepareScene_frame _ _ _ _ hb).2]
    rfl
  have hl : s2.m_basicMeshes.loaded = [.plane, .cylinder, .box, .cone, .sphere, .torus] := by
    rw [h2, (PrepareScene_frame _ _ _ _ hb).2]
    rfl
  refine ⟨s2, h1, hd, hl, ?_⟩
  rw [hd]
  decide

end Scene
